import Mathlib

/-!
Verification development for the FeliX data-processing scripts.

The Python scripts under scripts/ and "Regionalied FeliX/Data Processing
Scripts/" are linear batch transforms over in-memory tables.  This file
gives a shallow embedding of their central functions:

* `dataCleaningUnpd` and `dataRestructure` from
  scripts/population/population_aggregation.py;
* `data_cleaning_world_bank` from gdp/gdp_aggregation.py
  (`gdpCleanYear`, `gdpCleanWB`), capital/capital_activities.py
  (`capCleanYear`, `capCleanWB`) and
  scripts/capital/capital_activity_shares.py (`shCleanYear`);
* `logistic_functions` / `parameter_calibrating` from
  calibration/mortality_fraction.py (`logisticPredict`, `calLoop`,
  `parameterCalibrating`);
* the config-lookup prologue shared by the scripts (`selectLast`,
  `scriptPrelude`).

Tables are lists of records; numeric cells are `ℚ` (an exact model of the
scripts' float arithmetic), with `Option ℚ` for cells that may be NaN
(pandas' `sum` skips NaN, `isna` counts it).  A Python `for` loop that can
raise is embedded as an `Except String` computation; an uncaught exception
is `Except.error`.

Rational arithmetic is written with the kernel-computable wrappers
`qadd`, `qmul`, `qdiv`, `qsub`, `qneg`, `qofNat` (the Batteries `Rat`
operations are `@[irreducible]`, so `decide` cannot evaluate them); the
lemmas `qadd_eq` etc. prove each wrapper equal to the corresponding field
operation on `ℚ`.
-/

namespace Felix

set_option maxRecDepth 100000

/-! ### Kernel-computable rational arithmetic -/

/-- Addition on `ℚ`, written so the kernel can reduce it. -/
def qadd (a b : ℚ) : ℚ := Rat.divInt (a.num * b.den + b.num * a.den) (a.den * b.den)

/-- Multiplication on `ℚ`, written so the kernel can reduce it. -/
def qmul (a b : ℚ) : ℚ := Rat.divInt (a.num * b.num) (a.den * b.den)

/-- Division on `ℚ` (with `qdiv a 0 = 0`, as for `ℚ`), written so the kernel can reduce it. -/
def qdiv (a b : ℚ) : ℚ := Rat.divInt (a.num * b.den) (a.den * b.num)

/-- Negation on `ℚ`, written so the kernel can reduce it. -/
def qneg (a : ℚ) : ℚ := Rat.divInt (-a.num) a.den

/-- Subtraction on `ℚ`, written so the kernel can reduce it. -/
def qsub (a b : ℚ) : ℚ := qadd a (qneg b)

/-- Embedding of a natural number into `ℚ`, written so the kernel can reduce it. -/
def qofNat (n : Nat) : ℚ := mkRat n 1

theorem den_cast_nz (a : ℚ) : ((a.den : ℚ)) ≠ 0 := by
  exact_mod_cast a.den_nz

theorem num_eq_mul_den (a : ℚ) : (a.num : ℚ) = a * (a.den : ℚ) := by
  have h := Rat.num_div_den a
  rw [div_eq_iff (den_cast_nz a)] at h
  exact h

theorem qadd_eq (a b : ℚ) : qadd a b = a + b := by
  rw [qadd, Rat.divInt_eq_div]
  push_cast
  rw [num_eq_mul_den a, num_eq_mul_den b, div_eq_iff (by
    exact mul_ne_zero (den_cast_nz a) (den_cast_nz b))]
  ring

theorem qmul_eq (a b : ℚ) : qmul a b = a * b := by
  rw [qmul, Rat.divInt_eq_div]
  push_cast
  rw [num_eq_mul_den a, num_eq_mul_den b, div_eq_iff (by
    exact mul_ne_zero (den_cast_nz a) (den_cast_nz b))]
  ring

theorem qneg_eq (a : ℚ) : qneg a = -a := by
  rw [qneg, Rat.divInt_eq_div]
  push_cast
  rw [num_eq_mul_den a]
  field_simp

theorem qsub_eq (a b : ℚ) : qsub a b = a - b := by
  rw [qsub, qadd_eq, qneg_eq]
  ring

theorem qofNat_eq (n : Nat) : qofNat n = (n : ℚ) := by
  rw [qofNat, Rat.mkRat_eq_div]
  push_cast
  simp

theorem qdiv_eq (a b : ℚ) : qdiv a b = a / b := by
  rcases eq_or_ne b 0 with rfl | hb
  · simp [qdiv, Rat.divInt_eq_div]
  · rw [qdiv, Rat.divInt_eq_div]
    push_cast
    rw [num_eq_mul_den a, num_eq_mul_den b, div_eq_div_iff (by
      · exact mul_ne_zero (den_cast_nz a) (mul_ne_zero (by
          simpa [num_eq_mul_den b, mul_eq_zero, den_cast_nz b] using
            (Rat.num_ne_zero).mpr hb) (by simp))) (by exact hb)]
    ring

/-! ### Python loops with exceptions

A `for` loop whose body may raise is `exMap`: it maps the body over the
list and stops at the first `Except.error`, which models an uncaught
Python exception aborting the script. -/

/-- Exception-propagating map: the embedding of a Python `for` loop whose
body appends one result per iteration and may raise. -/
def exMap (f : α → Except String β) : List α → Except String (List β)
  | [] => .ok []
  | x :: xs =>
    match f x with
    | .error e => .error e
    | .ok y =>
      match exMap f xs with
      | .error e => .error e
      | .ok ys => .ok (y :: ys)

theorem exMap_ok_cons {f : α → Except String β} {x : α} {xs : List α} {r : List β}
    (h : exMap f (x :: xs) = .ok r) :
    ∃ y ys, f x = .ok y ∧ exMap f xs = .ok ys ∧ r = y :: ys := by
  unfold exMap at h
  rcases hx : f x with e | y <;> rw [hx] at h
  · exact absurd h (by simp)
  · rcases hxs : exMap f xs with e | ys <;> rw [hxs] at h
    · exact absurd h (by simp)
    · exact ⟨y, ys, rfl, rfl, by injection h with h; exact h.symm⟩

theorem exMap_ok_length {f : α → Except String β} {xs : List α} {ys : List β}
    (h : exMap f xs = .ok ys) : ys.length = xs.length := by
  induction xs generalizing ys with
  | nil => unfold exMap at h; injection h with h; simp [← h]
  | cons x xs ih =>
    rcases exMap_ok_cons h with ⟨y, ys', hy, hys, rfl⟩
    simp [ih hys]

theorem exMap_ok_mem {f : α → Except String β} {xs : List α} {ys : List β}
    (h : exMap f xs = .ok ys) : ∀ y ∈ ys, ∃ x ∈ xs, f x = .ok y := by
  induction xs generalizing ys with
  | nil => unfold exMap at h; injection h with h; simp [← h]
  | cons x xs ih =>
    rcases exMap_ok_cons h with ⟨y, ys', hy, hys, rfl⟩
    intro z hz
    rcases List.mem_cons.mp hz with rfl | hz
    · exact ⟨x, List.mem_cons_self .., hy⟩
    · rcases ih hys z hz with ⟨x', hx', hfx'⟩
      exact ⟨x', List.mem_cons_of_mem _ hx', hfx'⟩

theorem exMap_ok_forall {f : α → Except String β} {xs : List α} {ys : List β}
    (h : exMap f xs = .ok ys) : ∀ x ∈ xs, ∃ y ∈ ys, f x = .ok y := by
  induction xs generalizing ys with
  | nil => simp
  | cons x xs ih =>
    rcases exMap_ok_cons h with ⟨y, ys', hy, hys, rfl⟩
    intro z hz
    rcases List.mem_cons.mp hz with rfl | hz
    · exact ⟨y, List.mem_cons_self .., hy⟩
    · rcases ih hys z hz with ⟨y', hy', hfy'⟩
      exact ⟨y', List.mem_cons_of_mem _ hy', hfy'⟩

theorem exMap_ok_getD {f : α → Except String β} {xs : List α} {ys : List β}
    (h : exMap f xs = .ok ys) (j : Nat) (hj : j < xs.length) (dx : α) (dy : β) :
    f (xs.getD j dx) = .ok (ys.getD j dy) := by
  induction xs generalizing ys j with
  | nil => simp at hj
  | cons x xs ih =>
    rcases exMap_ok_cons h with ⟨y, ys', hy, hys, rfl⟩
    cases j with
    | zero => simpa using hy
    | succ j => exact ih hys j (by simpa using hj)

theorem bind_ok {x : Except String α} {f : α → Except String β} {b : β}
    (h : x.bind f = .ok b) : ∃ a, x = .ok a ∧ f a = .ok b := by
  rcases hx : x with e | a <;> rw [hx] at h
  · exact absurd h (by simp [Except.bind])
  · exact ⟨a, rfl, h⟩

theorem map_ok {x : Except String α} {f : α → β} {b : β}
    (h : Except.map f x = .ok b) : ∃ a, x = .ok a ∧ f a = b := by
  rcases hx : x with e | a <;> rw [hx] at h
  · exact absurd h (by simp [Except.map])
  · refine ⟨a, rfl, ?_⟩
    simp [Except.map] at h
    exact h

/-! ### NaN-aware cells

A table cell that can be NaN is `Option ℚ`; `none` is NaN.  pandas'
`Series.sum()` skips NaN (and returns 0 on an all-NaN or empty series);
`isna().sum()` counts NaN. -/

/-- pandas `Series.sum()`: sum of the non-NaN cells, `0` if none. -/
def optSum (vs : List (Option ℚ)) : ℚ := (vs.filterMap id).foldr qadd (mkRat 0 1)

/-- pandas `Series.isna().sum()`: the number of NaN cells. -/
def nanCount (vs : List (Option ℚ)) : Nat := (vs.filter Option.isNone).length

theorem optSum_eq_sum (vs : List (Option ℚ)) : optSum vs = (vs.filterMap id).sum := by
  unfold optSum
  have h0 : mkRat 0 1 = (0 : ℚ) := by rw [Rat.mkRat_eq_div]; simp
  rw [h0]
  generalize vs.filterMap id = l
  induction l with
  | nil => simp
  | cons x l ih => simp [List.foldr, ih, qadd_eq]

/-- Sum of a list of rationals (kernel-computable). -/
def qlistSum (l : List ℚ) : ℚ := l.foldr qadd (mkRat 0 1)

theorem qlistSum_eq_sum (l : List ℚ) : qlistSum l = l.sum := by
  unfold qlistSum
  have h0 : mkRat 0 1 = (0 : ℚ) := by rw [Rat.mkRat_eq_div]; simp
  rw [h0]
  induction l with
  | nil => simp
  | cons x l ih => simp [List.foldr, ih, qadd_eq]

theorem optSum_eq_qlistSum (vs : List (Option ℚ)) : optSum vs = qlistSum (vs.filterMap id) := by
  rw [optSum_eq_sum, qlistSum_eq_sum]

/-! ### Population script: scripts/population/population_aggregation.py

Raw UNPD rows (downloaded via the API) carry columns `Location`,
`TimeLabel` (renamed `Year`), `Sex` (renamed `sex`, lower-cased),
`AgeLabel` (renamed `age`) and `Value`; the concordance table has columns
`region_api` and `un_region`. -/

/-- One raw UNPD observation (API download), after the column renames. -/
structure PRaw where
  location : String
  year : Int
  sex : String
  age : String
  value : ℚ
deriving DecidableEq, Repr

/-- One row of the population concordance table. -/
structure PConc where
  regionApi : String
  unRegion : String
deriving DecidableEq, Repr

/-- One cleaned population observation (output of `data_cleaning_unpd`). -/
structure PRec where
  region : String
  sex : String
  age : String
  year : Int
  value : ℚ
deriving DecidableEq, Repr

/-- Python `str.lower()` (kernel-computable, unlike `String.toLower`). -/
def lowerStr (s : String) : String := ⟨s.data.map Char.toLower⟩

/-- Helper for `str.replace("--", "-")`: left-to-right non-overlapping replace. -/
def replaceDashes : List Char → List Char
  | [] => []
  | '-' :: '-' :: rest => '-' :: replaceDashes rest
  | c :: rest => c :: replaceDashes rest

/-- Python `age.replace("--", "-")`. -/
def ageReplace (s : String) : String := ⟨replaceDashes s.data⟩

/-- The `pd.merge(raw_data, concordance[["region_api", "un_region"]],
left_on="Location", right_on="region_api")` join, followed by the column
renames and the lower-casing of the `sex` column. -/
def mergeUnpdApi (raw : List PRaw) (conc : List PConc) : List PRec :=
  raw.flatMap fun r =>
    (conc.filter fun c => c.regionApi = r.location).map fun c =>
      ⟨c.unRegion, lowerStr r.sex, r.age, r.year, r.value⟩

/-- The sorted distinct years of a column, `np.unique`. -/
def uniqueYears (ys : List Int) : List Int := (ys.dedup).insertionSort (· ≤ ·)

/-- The `groupby(["un_region", "sex", "Year"]).get_group((r, s, y))` lookup:
`KeyError` when the group is empty. -/
def getGroupRSY (rows : List PRec) (r s : String) (y : Int) : Except String (List PRec) :=
  let g := rows.filter fun m => m.region = r ∧ m.sex = s ∧ m.year = y
  if g.isEmpty then .error "KeyError" else .ok g

/-- The `groupby(["age"])["Value"].sum()` table followed by
`.loc[ages == age, "Value"].values[0]`: `IndexError` when no row of the
group has this age, else the sum of the `Value` column over that age. -/
def ageSum (g : List PRec) (a : String) : Except String ℚ :=
  let ga := g.filter fun m => m.age = a
  if ga.isEmpty then .error "IndexError" else .ok (qlistSum (ga.map (·.value)))

/-- The inner loop body of `data_cleaning_unpd` for one (region, sex, year):
one cleaned entry per configured age cohort. -/
def cleanGroupUnpd (merged : List PRec) (ages : List String) (r s : String) (y : Int) :
    Except String (List PRec) := do
  let g ← getGroupRSY merged r s y
  exMap (fun a0 => do
    let a := ageReplace a0
    let v ← ageSum g a
    .ok (⟨r, s, a, y, v⟩ : PRec)) ages

/-- The function `data_cleaning_unpd` (API branch) of
scripts/population/population_aggregation.py. -/
def dataCleaningUnpd (regions genders ages : List String)
    (raw : List PRaw) (conc : List PConc) : Except String (List PRec) := do
  let merged := mergeUnpdApi raw conc
  let yrs := uniqueYears (merged.map (·.year))
  let triples := regions.flatMap fun r => genders.flatMap fun s => yrs.map fun y => (r, s, y)
  let groups ← exMap (fun t => cleanGroupUnpd merged ages t.1 t.2.1 t.2.2) triples
  .ok groups.flatten

/-! #### data_restructure -/

/-- The year columns `range(1900, 2101)` of the restructured table. -/
def yearRange : List Int := (List.range 201).map fun j => 1900 + Int.ofNat j

/-- Whether `year in year_avail`, with `year_avail = np.unique(cleaned_data["year"])`. -/
def yearAvail (cd : List PRec) (y : Int) : Bool := cd.any fun m => m.year = y

/-- One row of the restructured wide table: a `parameter` name and one cell
per year column (`none` is the blank written for a missing year). -/
structure RRow where
  parameter : String
  cells : List (Option ℚ)
deriving DecidableEq, Repr

/-- The year-`y` cell of a `Population[region]` row:
`cleaned_data.groupby(["un_region", "year"])["value"].sum().loc[region, year]`
when the year is available (`KeyError` when that group is empty), blank
otherwise. -/
def regionCell (cd : List PRec) (r : String) (y : Int) : Except String (Option ℚ) :=
  if yearAvail cd y then
    if (cd.filter fun m => m.region = r ∧ m.year = y).isEmpty then .error "KeyError"
    else .ok (some (qlistSum ((cd.filter fun m => m.region = r ∧ m.year = y).map (·.value))))
  else .ok none

/-- One `Population[region]` row of the restructured table. -/
def regionRow (cd : List PRec) (r : String) : Except String RRow :=
  Except.map (fun cs => ⟨"Population[" ++ r ++ "]", cs⟩) (exMap (regionCell cd r) yearRange)

/-- The year-`y` cell of a `Population by Gender[region,sex]` row. -/
def genderCell (cd : List PRec) (r s : String) (y : Int) : Except String (Option ℚ) :=
  if yearAvail cd y then
    if (cd.filter fun m => m.region = r ∧ m.sex = s ∧ m.year = y).isEmpty then .error "KeyError"
    else .ok (some (qlistSum
      ((cd.filter fun m => m.region = r ∧ m.sex = s ∧ m.year = y).map (·.value))))
  else .ok none

/-- One `Population by Gender[region,sex]` row of the restructured table. -/
def genderRow (cd : List PRec) (r s : String) : Except String RRow :=
  Except.map (fun cs => ⟨"Population by Gender[" ++ r ++ "," ++ s ++ "]", cs⟩)
    (exMap (genderCell cd r s) yearRange)

/-- The cohort group of a (region, sex, age) triple. -/
def cohortFilter (cd : List PRec) (r s a : String) : List PRec :=
  cd.filter fun m => m.region = r ∧ m.sex = s ∧ m.age = a

/-- The `cleaned_data.groupby(["un_region", "sex", "age"]).get_group((r, s, a))`
lookup of the cohort section: `KeyError` when the group is empty. -/
def cohortGroup (cd : List PRec) (r s a : String) : Except String (List PRec) :=
  if (cohortFilter cd r s a).isEmpty then .error "KeyError" else .ok (cohortFilter cd r s a)

/-- The year-`y` cell of a cohort row: the first `value` of the cohort group
at that year; the `except IndexError: print(...); exit()` of the source is
an abort, embedded as an error. -/
def cohortCell (cd g : List PRec) (y : Int) : Except String (Option ℚ) :=
  if yearAvail cd y then
    match (g.filter fun m => m.year = y).head? with
    | some m => .ok (some m.value)
    | none => .error "SystemExit"
  else .ok none

/-- One `Population Cohorts[region,sex,"age"]` row of the restructured table. -/
def cohortRow (cd : List PRec) (r s a0 : String) : Except String RRow := do
  let a := ageReplace a0
  let g ← cohortGroup cd r s a
  Except.map (fun cs => ⟨"Population Cohorts[" ++ r ++ "," ++ s ++ ",\"" ++ a ++ "\"]", cs⟩)
    (exMap (cohortCell cd g) yearRange)

/-- The function `data_restructure` of
scripts/population/population_aggregation.py: the `Population` rows, then
the `Population by Gender` rows, then the `Population Cohorts` rows. -/
def dataRestructure (regions genders ages : List String) (cd : List PRec) :
    Except String (List RRow) := do
  let s1 ← exMap (regionRow cd) regions
  let s2 ← exMap (fun p => genderRow cd p.1 p.2) (List.product regions genders)
  let s3 ← exMap (fun t => cohortRow cd t.1 t.2.1 t.2.2)
      (List.product regions (List.product genders ages))
  .ok (s1 ++ s2 ++ s3)

/-! #### CSV serialization and the script run -/

/-- One CSV cell: blank for a missing year. -/
def csvCell : Option ℚ → String
  | none => ""
  | some q => toString q

/-- One CSV line of the restructured table. -/
def csvRow (r : RRow) : String := String.intercalate "," (r.parameter :: r.cells.map csvCell)

/-- The `to_csv` serialization of the restructured table. -/
def csvTable (rows : List RRow) : String :=
  String.intercalate "\n"
    (String.intercalate "," ("parameter" :: yearRange.map toString) :: rows.map csvRow)

/-- The observable result of one run of the population script: the log-file
path (the only place the wall-clock timestamp is used) and the CSV text
written to the clean-data folder. -/
structure ScriptRun where
  logFile : String
  output : Except String String

/-- One run of the clean-and-restructure pipeline of
scripts/population/population_aggregation.py, with the wall-clock
timestamp `ts` made explicit. -/
def runPopulationScript (ts : Nat) (regions genders ages : List String)
    (raw : List PRaw) (conc : List PConc) : ScriptRun :=
  { logFile := "logs/" ++ toString ts ++ ".log"
  , output := do
      let cleaned ← dataCleaningUnpd regions genders ages raw conc
      let rows ← dataRestructure regions genders ages cleaned
      .ok (csvTable rows) }

/-! ### World Bank cleaners

Shared by gdp/gdp_aggregation.py, capital/capital_activities.py and
scripts/capital/capital_activity_shares.py: raw rows (from the World Bank
API JSON) carry `country`, `time` (renamed `year`) and `value` (NaN when
the JSON value was empty); the concordance has `location` and the target
region column. -/

/-- One raw World Bank observation (API download), after the renames. -/
structure WRaw where
  country : String
  year : Int
  value : Option ℚ
deriving DecidableEq, Repr

/-- One row of a World Bank concordance table: `location` and the target
region column (`un_region` or `ipcc_r6`). -/
structure WConc where
  location : String
  region : String
deriving DecidableEq, Repr

/-- One merged World Bank row. -/
structure WRow where
  region : String
  year : Int
  value : Option ℚ
deriving DecidableEq, Repr

/-- The `pd.merge(raw_data, concordance[["location", <region>]],
left_on="country", right_on="location")` join followed by the rename of
`time` to `year`. -/
def mergeWB (raw : List WRaw) (conc : List WConc) : List WRow :=
  raw.flatMap fun r =>
    (conc.filter fun c => c.location = r.country).map fun c => ⟨c.region, r.year, r.value⟩

/-- One cleaned entry of the gdp or capital cleaner. -/
structure GEntry where
  region : String
  year : Int
  value : Option ℚ
  unit : String
deriving DecidableEq, Repr

/-- The group of country rows of one (region, year): the rows the
`get_group` lookup returns when it succeeds. -/
def wbFilter (rows : List WRow) (r : String) (y : Int) : List WRow :=
  rows.filter fun m => m.region = r ∧ m.year = y

/-- The `groupby([<region>, "year"]).get_group((r, y))` lookup: `KeyError`
when the group is empty. -/
def wbGroup (rows : List WRow) (r : String) (y : Int) : Except String (List WRow) :=
  if (wbFilter rows r y).isEmpty then .error "KeyError" else .ok (wbFilter rows r y)

/-- The country-coverage test
`raw_data_region_year["value"].isna().sum() < len(raw_data_region_year) * thr`. -/
def covOK (g : List WRow) (thr : ℚ) : Prop :=
  qofNat (nanCount (g.map (·.value))) < qmul (qofNat g.length) thr

instance decCovOK (g : List WRow) (thr : ℚ) : Decidable (covOK g thr) :=
  inferInstanceAs (Decidable (_ < _))

/-- The entry `{<region>: r, "year": y, "value": group["value"].sum(), "unit": u}`. -/
def mkWBEntry (g : List WRow) (r : String) (y : Int) (u : String) : GEntry :=
  ⟨r, y, some (optSum (g.map (·.value))), u⟩

/-- The threshold `0.2` of the gdp cleaner's coverage test. -/
def gdpThreshold : ℚ := mkRat 2 10

/-- The `for region in regions` loop of one year of
`data_cleaning_world_bank` in gdp/gdp_aggregation.py.  The first component
is the local accumulator `cleaned_data_`: a failed coverage test resets it
to `[]` and breaks out of the loop, represented as `none` (the following
`if cleaned_data_:` treats `none` and `some []` alike, both falsy in
Python).  The second component collects the World entries appended
directly to `cleaned_data`. -/
def gdpYearLoop (rows : List WRow) (y : Int) (u : String) :
    List String → List GEntry → List GEntry →
      Except String (Option (List GEntry) × List GEntry)
  | [], pend, glb => .ok (some pend, glb)
  | r :: rest, pend, glb => do
    let g ← wbGroup rows r y
    if r ≠ "World" then
      if covOK g gdpThreshold then
        gdpYearLoop rows y u rest (pend ++ [mkWBEntry g r y u]) glb
      else
        .ok (none, glb)
    else
      gdpYearLoop rows y u rest pend (glb ++ [mkWBEntry g r y u])

/-- The rescaling `cleaned_data_["value"] * sf` with
`sf = raw_global_data / cleaned_data_["value"].sum()`; `w` is
`raw_global.iloc[0]`'s value (NaN propagates). -/
def scaleEntry (w : Option ℚ) (total : ℚ) (e : GEntry) : GEntry :=
  { e with value := e.value.bind fun v => w.map fun wv => qmul v (qdiv wv total) }

/-- The `if cleaned_data_:` global-GDP balancing block of
gdp/gdp_aggregation.py (skipped both after a break and when no region
entry was added, `cleaned_data_` being falsy in each case). -/
def gdpBalance (rows : List WRow) (y : Int) :
    Option (List GEntry) × List GEntry → Except String (List GEntry)
  | (none, glb) => .ok glb
  | (some pend, glb) =>
    if pend.isEmpty then .ok glb
    else do
      let wg ← wbGroup rows "World" y
      let w : Option ℚ := wg.head?.bind (·.value)
      let total : ℚ := optSum (pend.map (·.value))
      .ok (glb ++ pend.map (scaleEntry w total))

/-- One year of `data_cleaning_world_bank` in gdp/gdp_aggregation.py: the
region loop followed by the global-GDP balancing block. -/
def gdpCleanYear (rows : List WRow) (y : Int) (u : String) (regions : List String) :
    Except String (List GEntry) := do
  let st ← gdpYearLoop rows y u regions [] []
  gdpBalance rows y st

/-- The function `data_cleaning_world_bank` (API branch) of
gdp/gdp_aggregation.py. -/
def gdpCleanWB (raw : List WRaw) (conc : List WConc) (u : String) (regions : List String) :
    Except String (List GEntry) := do
  let rows := mergeWB raw conc
  let yrs := uniqueYears (rows.map (·.year))
  let out ← exMap (fun y => gdpCleanYear rows y u regions) yrs
  .ok out.flatten

/-- The per-region NaN threshold of capital/capital_activities.py:
`0.3` for LAC and AsiaPacific, `0.2` otherwise. -/
def capThreshold (r : String) : ℚ :=
  if r = "LAC" then mkRat 3 10
  else if r = "AsiaPacific" then mkRat 3 10
  else mkRat 2 10

/-- The `for region in regions` loop of one year of
`data_cleaning_world_bank` in capital/capital_activities.py (no `break`;
each passing entry goes to both `cleaned_data_` and `cleaned_data`, and
the two accumulate identically within a year). -/
def capYearLoop (rows : List WRow) (y : Int) (u : String) :
    List String → List GEntry → Except String (List GEntry)
  | [], pend => .ok pend
  | r :: rest, pend => do
    let g ← wbGroup rows r y
    if r ≠ "World" then
      if covOK g (capThreshold r) then
        capYearLoop rows y u rest (pend ++ [mkWBEntry g r y u])
      else
        capYearLoop rows y u rest pend
    else
      capYearLoop rows y u rest pend

/-- One year of `data_cleaning_world_bank` in
capital/capital_activities.py: the region loop, then the
`if len(cleaned_data_) == 5` block appending the `regions[-1]` (World)
entry whose value is the sum of the five regional entries. -/
def capCleanYear (rows : List WRow) (y : Int) (u : String) (regions : List String) :
    Except String (List GEntry) := do
  let pend ← capYearLoop rows y u regions []
  if pend.length = 5 then
    .ok (pend ++ [⟨regions.getLastD "World", y, some (optSum (pend.map (·.value))), u⟩])
  else
    .ok pend

/-- The function `data_cleaning_world_bank` (API branch) of
capital/capital_activities.py. -/
def capCleanWB (raw : List WRaw) (conc : List WConc) (u : String) (regions : List String) :
    Except String (List GEntry) := do
  let rows := mergeWB raw conc
  let yrs := uniqueYears (rows.map (·.year))
  let out ← exMap (fun y => capCleanYear rows y u regions) yrs
  .ok out.flatten

/-! ### scripts/capital/capital_activity_shares.py -/

/-- One merged row that keeps the `location` column (the shares cleaner
re-merges the two frames on `location` inside the region loop). -/
structure LRow where
  location : String
  region : String
  year : Int
  value : Option ℚ
deriving DecidableEq, Repr

/-- The World Bank merge keeping the `location` column. -/
def mergeWBLoc (raw : List WRaw) (conc : List WConc) : List LRow :=
  raw.flatMap fun r =>
    (conc.filter fun c => c.location = r.country).map fun c =>
      ⟨c.location, c.region, r.year, r.value⟩

/-- The group of location-keeping rows of one (region, year). -/
def locFilter (rows : List LRow) (r : String) (y : Int) : List LRow :=
  rows.filter fun m => m.region = r ∧ m.year = y

/-- The `get_group((r, y))` lookup on a location-keeping frame. -/
def locGroup (rows : List LRow) (r : String) (y : Int) : Except String (List LRow) :=
  if (locFilter rows r y).isEmpty then .error "KeyError" else .ok (locFilter rows r y)

/-- The `pd.merge(raw_data_region_year, raw_data_region_year_dep,
on="location")` join: per country, the (value, value_dep) pair. -/
def shPairs (g gdep : List LRow) : List (Option ℚ × Option ℚ) :=
  g.flatMap fun a => (gdep.filter fun b => b.location = a.location).map fun b => (a.value, b.value)

/-- The coverage test of the shares cleaner, on the `value_dep` column of
the per-region merged frame. -/
def covDepOK (ps : List (Option ℚ × Option ℚ)) (thr : ℚ) : Prop :=
  qofNat (nanCount (ps.map (·.2))) < qmul (qofNat ps.length) thr

instance decCovDepOK (ps : List (Option ℚ × Option ℚ)) (thr : ℚ) : Decidable (covDepOK ps thr) :=
  inferInstanceAs (Decidable (_ < _))

/-- The per-region NaN threshold of capital_activity_shares.py: all three
branches of the source set `0.2`. -/
def shThreshold (r : String) : ℚ :=
  if r = "LAC" then mkRat 2 10
  else if r = "AsiaPacific" then mkRat 2 10
  else mkRat 2 10

/-- One cleaned entry of the shares cleaner. -/
structure SEntry where
  region : String
  year : Int
  unitDep : String
  valueDep : ℚ
  value : ℚ
deriving DecidableEq, Repr

/-- The `dropna()` of the per-region merged frame: the rows where both
`value` and `value_dep` are present. -/
def shDropna (ps : List (Option ℚ × Option ℚ)) : List (ℚ × ℚ) :=
  ps.filterMap fun p =>
    match p.1, p.2 with
    | some v, some d => some (v, d)
    | _, _ => none

/-- The entry of the shares cleaner for one passing (region, year):
`value_dep` is the NaN-skipping sum of the dependent column, `value` the
GDP-weighted average of the share column divided by 100. -/
def mkShEntry (ps : List (Option ℚ × Option ℚ)) (r : String) (y : Int) : SEntry :=
  let nn := shDropna ps
  ⟨r, y, "current US$", optSum (ps.map (·.2)),
    qdiv (qdiv (qlistSum (nn.map fun p => qmul p.2 p.1)) (qlistSum (nn.map (·.2))))
      (qofNat 100)⟩

/-- The `for region in regions` loop of one year of
`data_cleaning_world_bank` in capital_activity_shares.py. -/
def shYearLoop (rows rowsDep : List LRow) (y : Int) :
    List String → List SEntry → Except String (List SEntry)
  | [], pend => .ok pend
  | r :: rest, pend => do
    let g ← locGroup rows r y
    let gd ← locGroup rowsDep r y
    let ps := shPairs g gd
    if r ≠ "World" then
      if covDepOK ps (shThreshold r) then
        shYearLoop rows rowsDep y rest (pend ++ [mkShEntry ps r y])
      else
        shYearLoop rows rowsDep y rest pend
    else
      shYearLoop rows rowsDep y rest pend

/-- One year of `data_cleaning_world_bank` in capital_activity_shares.py:
the region loop, then the `if len(cleaned_data_) == 5` block appending the
`regions[-1]` (World) entry. -/
def shCleanYear (rows rowsDep : List LRow) (y : Int) (regions : List String) :
    Except String (List SEntry) := do
  let pend ← shYearLoop rows rowsDep y regions []
  if pend.length = 5 then
    .ok (pend ++ [⟨regions.getLastD "World", y, "current US$",
      qlistSum (pend.map (·.valueDep)),
      qdiv (qlistSum (pend.map fun e => qmul e.valueDep e.value))
        (qlistSum (pend.map (·.valueDep)))⟩])
  else
    .ok pend

/-! ### Calibration: calibration/mortality_fraction.py

`curve_fit` is scipy's floating-point nonlinear least-squares optimizer
and `np.exp` the floating-point exponential; both are external libraries,
so they enter the embedding as the oracle parameters `fit` and `expFn`.
`fit` may raise `RuntimeError` (modelled as `Except.error ()`), which the
source catches. -/

/-- The four parameters (L0, L, k, x0) returned by one `curve_fit` call. -/
structure FitParams where
  L0 : ℚ
  L : ℚ
  k : ℚ
  x0 : ℚ
deriving DecidableEq, Repr

/-- The function `logistic_functions` of calibration/mortality_fraction.py
(the `mortality_fraction` branch): `L0 + L / (1 + exp(-k * (x / x_ref - x0)))`,
with the exponential abstracted as `expFn` and the per-region reference
value `cal_data_dep_ref[...][region]` as `xref`. -/
def logisticPredict (expFn : ℚ → ℚ) (xref : ℚ) (p : FitParams) (x : ℚ) : ℚ :=
  qadd p.L0 (qdiv p.L (qadd (qofNat 1) (expFn (qmul (qneg p.k) (qsub (qdiv x xref) p.x0)))))

/-- Modelled from the spec: sklearn's `r2_score` (external library), the
R² goodness-of-fit `1 - SS_res / SS_tot`. -/
def r2Score (yTrue yPred : List ℚ) : ℚ :=
  let mean := qdiv (qlistSum yTrue) (qofNat yTrue.length)
  let ssRes := qlistSum ((yTrue.zip yPred).map fun p => qmul (qsub p.1 p.2) (qsub p.1 p.2))
  let ssTot := qlistSum (yTrue.map fun t => qmul (qsub t mean) (qsub t mean))
  qsub (qofNat 1) (qdiv ssRes ssTot)

/-- The `for i in range(cal_data_num)` loop of `parameter_calibrating`:
per historic series, `curve_fit` inside `try: ... except RuntimeError:
logging.error(...)`; after the handler the loop continues and uses the
variable `n_par`, which still holds the previous iteration's fit (a
`NameError` aborts if no fit has succeeded yet).  Each result row is the
four fitted parameters followed by the R² of the series against the
logistic predictions. -/
def calLoop (fit : List ℚ → List ℚ → Except Unit FitParams) (expFn : ℚ → ℚ) (xref : ℚ)
    (dep : List ℚ) : List (List ℚ) → Option FitParams → Except String (List (List ℚ))
  | [], _ => .ok []
  | hist :: rest, prev =>
    let npar : Option FitParams :=
      match fit dep hist with
      | .ok p => some p
      | .error _ => prev
    match npar with
    | none => .error "NameError"
    | some p =>
      let est := dep.map (logisticPredict expFn xref p)
      match calLoop fit expFn xref dep rest (some p) with
      | .error e => .error e
      | .ok rows => .ok ([p.L0, p.L, p.k, p.x0, r2Score hist est] :: rows)

/-- The function `parameter_calibrating` of
calibration/mortality_fraction.py: the last row of the input table is the
dependency series, every other row a historic series to fit. -/
def parameterCalibrating (fit : List ℚ → List ℚ → Except Unit FitParams) (expFn : ℚ → ℚ)
    (xref : ℚ) (table : List (String × List ℚ)) : Except String (List (List ℚ)) :=
  match table.getLast? with
  | none => .error "IndexError"
  | some lastRow => calLoop fit expFn xref lastRow.2 (table.dropLast.map (·.2)) none

/-! ### Configuration lookup prologue -/

/-- One entry of a config.yaml `data_input` list (the fields the scripts
match on, plus an opaque payload distinguishing entries). -/
structure DatasetInfo where
  datasource : String
  downloadVia : String
  varName : String
  payload : Nat
deriving DecidableEq, Repr

/-- The `for dataset in data_info["data_input"]` selection loop: the last
matching entry wins, `none` when nothing matches. -/
def selectLast (p : DatasetInfo → Bool) (ds : List DatasetInfo) : Option DatasetInfo :=
  ds.foldl (fun acc d => if p d then some d else acc) none

/-- The script prologue: select the configured dataset, `raise KeyError`
when there is none, and only then read the raw data (`reader`). -/
def scriptPrelude (p : DatasetInfo → Bool) (ds : List DatasetInfo)
    (reader : DatasetInfo → Except String (List WRaw)) : Except String (List WRaw) :=
  match selectLast p ds with
  | none => .error "KeyError"
  | some info => reader info

/-- The match predicate of scripts/population/population_aggregation.py
(`datasource` and `download_via`). -/
def popConfigMatch (src mth : String) (d : DatasetInfo) : Bool :=
  d.datasource = src && d.downloadVia = mth

/-- The match predicate of calibration/mortality_fraction.py (`variable`). -/
def calConfigMatch (v : String) (d : DatasetInfo) : Bool :=
  d.varName = v

/-! ### State-passing wrappers for the frame claims

Every pandas operation the cleaners apply to the concordance frame
(column selection `concordance[[...]]`, `pd.merge`) returns a fresh
object, so the statement-by-statement translation of the function bodies
only ever writes the locals (`raw_data_merge` and its derivatives); the
concordance component of the state is never assigned. -/

/-- The frames in scope during `data_cleaning_unpd`: the concordance read
at script start and the local `raw_data_merge`. -/
structure PopCleanState where
  concordance : List PConc
  rawDataMerge : List PRec

/-- The state-passing translation of `data_cleaning_unpd` of
scripts/population/population_aggregation.py: builds `raw_data_merge`
(merge, renames, in-place lower-casing of its `sex` column) and returns
the cleaned table; no statement of the body assigns to the concordance. -/
def dataCleaningUnpdTracked (regions genders ages : List String) (raw : List PRaw)
    (st : PopCleanState) : Except String (List PRec) × PopCleanState :=
  let merged := mergeUnpdApi raw st.concordance
  (dataCleaningUnpd regions genders ages raw st.concordance,
    { st with rawDataMerge := merged })

/-- The frames in scope during the gdp `data_cleaning_world_bank`. -/
structure WBCleanState where
  concordance : List WConc
  rawDataMerge : List WRow

/-- The state-passing translation of `data_cleaning_world_bank` of
gdp/gdp_aggregation.py: builds `raw_data_merge` and returns the cleaned
table; no statement of the body assigns to the concordance. -/
def gdpCleanWBTracked (raw : List WRaw) (u : String) (regions : List String)
    (st : WBCleanState) : Except String (List GEntry) × WBCleanState :=
  let merged := mergeWB raw st.concordance
  (gdpCleanWB raw st.concordance u regions,
    { st with rawDataMerge := merged })

/-- Modelled from the spec: the `dimension.region` list of the scripts'
config.yaml files (the config files are not under src/).  The spec's
glossary names the five FeliX regions Africa, AsiaPacific, EastEu, LAC,
WestEu; the scripts also use a World region, addressed as `regions[-1]`
by capital_activities.py and listed last in the population restructure
docstring, so World is the last element. -/
def felixRegions : List String := ["Africa", "AsiaPacific", "EastEu", "LAC", "WestEu", "World"]

/-- The five non-World FeliX regions. -/
def fiveRegions : List String := ["Africa", "AsiaPacific", "EastEu", "LAC", "WestEu"]

/-- The NaN-skipping sum of the country values of one (region, year). -/
def groupSum (rows : List WRow) (r : String) (y : Int) : ℚ :=
  optSum ((wbFilter rows r y).map (·.value))

/-- The value of the first row of the World group of a year
(`raw_global.iloc[0]`), NaN as `none`. -/
def worldFirst (rows : List WRow) (y : Int) : Option ℚ :=
  (wbFilter rows "World" y).head?.bind (·.value)

/-- The sum of the five non-World regional sums of a year
(`cleaned_data_["value"].sum()` when all five regions passed). -/
def fiveTotal (rows : List WRow) (y : Int) : ℚ :=
  qlistSum (fiveRegions.map fun r => groupSum rows r y)

/-- Whether all five non-World regions pass the gdp coverage test for a year. -/
def gdpPass (rows : List WRow) (y : Int) : Prop :=
  ∀ r ∈ fiveRegions, covOK (wbFilter rows r y) gdpThreshold

instance decGdpPass (rows : List WRow) (y : Int) : Decidable (gdpPass rows y) :=
  inferInstanceAs (Decidable (∀ r ∈ fiveRegions, covOK (wbFilter rows r y) gdpThreshold))

/-! ### Helper lemmas -/

theorem wbGroup_ok {rows : List WRow} {r : String} {y : Int} {g : List WRow}
    (h : wbGroup rows r y = .ok g) : g = wbFilter rows r y ∧ wbFilter rows r y ≠ [] := by
  unfold wbGroup at h
  split at h
  · exact absurd h (by simp)
  · refine ⟨by injection h with h; exact h.symm, ?_⟩
    intro hnil
    exact ‹¬ _› (by simp [hnil])

theorem wbGroup_of_nonempty {rows : List WRow} {r : String} {y : Int}
    (h : wbFilter rows r y ≠ []) : wbGroup rows r y = .ok (wbFilter rows r y) := by
  unfold wbGroup
  rw [if_neg (by simpa [List.isEmpty_iff] using h)]

theorem selectLast_none {p : DatasetInfo → Bool} {ds : List DatasetInfo}
    (h : ∀ d ∈ ds, p d = false) : selectLast p ds = none := by
  unfold selectLast
  have aux : ∀ (l : List DatasetInfo) (acc : Option DatasetInfo), (∀ d ∈ l, p d = false) →
      l.foldl (fun acc d => if p d then some d else acc) acc = acc := by
    intro l
    induction l with
    | nil => intro acc _; rfl
    | cons d l ih =>
      intro acc hall
      have hd := hall d (List.mem_cons_self ..)
      rw [List.foldl_cons, if_neg (by simp [hd])]
      exact ih acc fun d' hd' => hall d' (List.mem_cons_of_mem _ hd')
  exact aux ds none h

theorem optSum_map_some (l : List ℚ) : optSum (l.map some) = qlistSum l := by
  rw [optSum_eq_qlistSum]
  congr 1
  simp

theorem locGroup_ok {rows : List LRow} {r : String} {y : Int} {g : List LRow}
    (h : locGroup rows r y = .ok g) : g = locFilter rows r y := by
  unfold locGroup at h
  split at h
  · exact absurd h (by simp)
  · injection h with h
    exact h.symm

theorem capYearLoop_mem (rows : List WRow) (y : Int) (u : String) :
    ∀ (rs : List String) (pend out : List GEntry),
      capYearLoop rows y u rs pend = .ok out → ∀ e ∈ out, e ∈ pend ∨
        ∃ r, r ∈ rs ∧ r ≠ "World" ∧ covOK (wbFilter rows r y) (capThreshold r) ∧
          e = mkWBEntry (wbFilter rows r y) r y u := by
  intro rs
  induction rs with
  | nil =>
    intro pend out h e he
    left
    unfold capYearLoop at h
    injection h with h
    rwa [h]
  | cons r rest ih =>
    intro pend out h e he
    simp only [capYearLoop] at h
    rcases bind_ok h with ⟨g, hg, h2⟩
    obtain ⟨hgf, -⟩ := wbGroup_ok hg
    subst hgf
    by_cases hr : r = "World"
    · rw [if_neg (by simp [hr])] at h2
      rcases ih pend out h2 e he with he' | ⟨r', hr', hw', hc', he'⟩
      · exact .inl he'
      · exact .inr ⟨r', List.mem_cons_of_mem _ hr', hw', hc', he'⟩
    · rw [if_pos (by simp [hr])] at h2
      split at h2
      · rcases ih _ out h2 e he with he' | ⟨r', hr', hw', hc', he'⟩
        · rcases List.mem_append.mp he' with he'' | he''
          · exact .inl he''
          · refine .inr ⟨r, List.mem_cons_self .., hr, ‹_›, ?_⟩
            simpa using he''
        · exact .inr ⟨r', List.mem_cons_of_mem _ hr', hw', hc', he'⟩
      · rcases ih pend out h2 e he with he' | ⟨r', hr', hw', hc', he'⟩
        · exact .inl he'
        · exact .inr ⟨r', List.mem_cons_of_mem _ hr', hw', hc', he'⟩

theorem shYearLoop_mem (rows rowsDep : List LRow) (y : Int) :
    ∀ (rs : List String) (pend out : List SEntry),
      shYearLoop rows rowsDep y rs pend = .ok out → ∀ e ∈ out, e ∈ pend ∨
        ∃ r, r ∈ rs ∧ r ≠ "World" ∧
          covDepOK (shPairs (locFilter rows r y) (locFilter rowsDep r y)) (shThreshold r) ∧
          e = mkShEntry (shPairs (locFilter rows r y) (locFilter rowsDep r y)) r y := by
  intro rs
  induction rs with
  | nil =>
    intro pend out h e he
    left
    unfold shYearLoop at h
    injection h with h
    rwa [h]
  | cons r rest ih =>
    intro pend out h e he
    simp only [shYearLoop] at h
    rcases bind_ok h with ⟨g, hg, h2⟩
    rcases bind_ok h2 with ⟨gd, hgd, h3⟩
    have hgf := locGroup_ok hg
    have hgdf := locGroup_ok hgd
    subst hgf
    subst hgdf
    by_cases hr : r = "World"
    · rw [if_neg (by simp [hr])] at h3
      rcases ih pend out h3 e he with he' | ⟨r', hr', hw', hc', he'⟩
      · exact .inl he'
      · exact .inr ⟨r', List.mem_cons_of_mem _ hr', hw', hc', he'⟩
    · rw [if_pos (by simp [hr])] at h3
      split at h3
      · rcases ih _ out h3 e he with he' | ⟨r', hr', hw', hc', he'⟩
        · rcases List.mem_append.mp he' with he'' | he''
          · exact .inl he''
          · refine .inr ⟨r, List.mem_cons_self .., hr, ‹_›, ?_⟩
            simpa using he''
        · exact .inr ⟨r', List.mem_cons_of_mem _ hr', hw', hc', he'⟩
      · rcases ih pend out h3 e he with he' | ⟨r', hr', hw', hc', he'⟩
        · exact .inl he'
        · exact .inr ⟨r', List.mem_cons_of_mem _ hr', hw', hc', he'⟩

theorem gdpYearLoop_world_last (rows : List WRow) (y : Int) (u : String) :
    ∀ (rs : List String) (pend glb : List GEntry)
      (res : Option (List GEntry) × List GEntry),
      (∀ r ∈ rs, r ≠ "World") →
      gdpYearLoop rows y u (rs ++ ["World"]) pend glb = .ok res →
      ((∀ r ∈ rs, covOK (wbFilter rows r y) gdpThreshold) ∧
        res = (some (pend ++ rs.map fun r => mkWBEntry (wbFilter rows r y) r y u),
               glb ++ [mkWBEntry (wbFilter rows "World" y) "World" y u])) ∨
      ((∃ r ∈ rs, ¬ covOK (wbFilter rows r y) gdpThreshold) ∧
        res.1 = none ∧ res.2 = glb) := by
  intro rs
  induction rs with
  | nil =>
    intro pend glb res _ h
    simp only [List.nil_append, gdpYearLoop] at h
    rcases bind_ok h with ⟨g, hg, h2⟩
    obtain ⟨hgf, -⟩ := wbGroup_ok hg
    subst hgf
    rw [if_neg (by decide)] at h2
    injection h2 with h2
    exact .inl ⟨by simp, by simp [← h2]⟩
  | cons r rest ih =>
    intro pend glb res hnw h
    have hr : r ≠ "World" := hnw r (List.mem_cons_self ..)
    simp only [List.cons_append, gdpYearLoop] at h
    rcases bind_ok h with ⟨g, hg, h2⟩
    obtain ⟨hgf, -⟩ := wbGroup_ok hg
    subst hgf
    rw [if_pos (by simp [hr])] at h2
    by_cases hcov : covOK (wbFilter rows r y) gdpThreshold
    · rw [if_pos hcov] at h2
      rcases ih _ glb res (fun r' hr' => hnw r' (List.mem_cons_of_mem _ hr')) h2 with
        ⟨hall, hres⟩ | ⟨hex, hres1, hres2⟩
      · refine .inl ⟨?_, ?_⟩
        · intro r' hr'
          rcases List.mem_cons.mp hr' with rfl | hr''
          · exact hcov
          · exact hall r' hr''
        · rw [hres]
          simp
      · refine .inr ⟨?_, hres1, hres2⟩
        rcases hex with ⟨r', hr', hc'⟩
        exact ⟨r', List.mem_cons_of_mem _ hr', hc'⟩
    · rw [if_neg hcov] at h2
      injection h2 with h2
      exact .inr ⟨⟨r, List.mem_cons_self .., hcov⟩, by simp [← h2], by simp [← h2]⟩

theorem felixRegions_eq : felixRegions = fiveRegions ++ ["World"] := rfl

theorem gdpCleanYear_cases (rows : List WRow) (y : Int) (u : String) (out : List GEntry)
    (h : gdpCleanYear rows y u felixRegions = .ok out) :
    (¬ gdpPass rows y ∧ out = []) ∨
    (gdpPass rows y ∧
      out = mkWBEntry (wbFilter rows "World" y) "World" y u ::
        (fiveRegions.map fun r => scaleEntry (worldFirst rows y) (fiveTotal rows y)
          (mkWBEntry (wbFilter rows r y) r y u))) := by
  unfold gdpCleanYear at h
  rcases bind_ok h with ⟨st, hst, h2⟩
  rw [felixRegions_eq] at hst
  obtain ⟨st1, st2⟩ := st
  rcases gdpYearLoop_world_last rows y u fiveRegions [] [] (st1, st2) (by decide) hst with
    ⟨hall, hres⟩ | ⟨hex, hres1, hres2⟩
  · right
    refine ⟨hall, ?_⟩
    obtain ⟨h1, h2'⟩ := Prod.mk.injEq .. ▸ hres
    injection hres with h1 h2'
    subst h1
    subst h2'
    simp only [gdpBalance, List.nil_append] at h2
    rw [if_neg (by simp [fiveRegions])] at h2
    rcases bind_ok h2 with ⟨wg, hwg, h3⟩
    obtain ⟨hwgf, -⟩ := wbGroup_ok hwg
    subst hwgf
    injection h3 with h3
    rw [← h3]
    have htot : optSum ((fiveRegions.map fun r => mkWBEntry (wbFilter rows r y) r y u).map
        (·.value)) = fiveTotal rows y := by
      rw [fiveTotal, ← optSum_map_some, List.map_map, List.map_map]
      simp [Function.comp_def, mkWBEntry, groupSum]
    rw [htot]
    simp only [List.singleton_append, List.map_map]
    rfl
  · left
    simp only at hres1 hres2
    subst hres1
    subst hres2
    refine ⟨fun hpass => ?_, ?_⟩
    · rcases hex with ⟨r, hr, hc⟩
      exact hc (hpass r hr)
    · simp only [gdpBalance] at h2
      injection h2 with h2
      exact h2.symm

theorem calLoop_ok_of_fit_ok (fit : List ℚ → List ℚ → Except Unit FitParams) (expFn : ℚ → ℚ)
    (xref : ℚ) (dep : List ℚ) :
    ∀ (hists : List (List ℚ)) (prev : Option FitParams),
      (∀ h ∈ hists, ∃ q, fit dep h = .ok q) →
      ∃ rows, calLoop fit expFn xref dep hists prev = .ok rows ∧
        rows.length = hists.length ∧
        ∀ i, i < hists.length → ∃ q, fit dep (hists.getD i []) = .ok q ∧
          rows.getD i [] = [q.L0, q.L, q.k, q.x0,
            r2Score (hists.getD i []) (dep.map (logisticPredict expFn xref q))] := by
  intro hists
  induction hists with
  | nil => exact fun prev _ => ⟨[], rfl, rfl, by simp⟩
  | cons hist rest ih =>
    intro prev hfit
    obtain ⟨q, hq⟩ := hfit hist (List.mem_cons_self ..)
    obtain ⟨rows', hrec, hlen, hidx⟩ :=
      ih (some q) fun h hh => hfit h (List.mem_cons_of_mem _ hh)
    refine ⟨[q.L0, q.L, q.k, q.x0,
        r2Score hist (dep.map (logisticPredict expFn xref q))] :: rows', ?_, by simp [hlen], ?_⟩
    · simp only [calLoop, hq, hrec]
    · intro i hi
      cases i with
      | zero => exact ⟨q, hq, rfl⟩
      | succ i => exact hidx i (by simpa using hi)

theorem yearRange_length : yearRange.length = 201 := by
  rw [yearRange, List.length_map, List.length_range]

theorem yearRange_getD (j : Nat) (hj : j < 201) (d : Int) :
    yearRange.getD j d = 1900 + (j : Int) := by
  unfold yearRange
  rw [List.getD_eq_getElem _ _ (by
    rw [List.length_map, List.length_range]
    exact hj)]
  rw [List.getElem_map, List.getElem_range]
  rfl

theorem regionRow_ok {cd : List PRec} {r : String} {row : RRow}
    (h : regionRow cd r = .ok row) :
    row.parameter = "Population[" ++ r ++ "]" ∧ row.cells.length = 201 ∧
    ∀ j : Nat, j < 201 → regionCell cd r (1900 + (j : Int)) = .ok (row.cells.getD j none) := by
  rcases map_ok h with ⟨cells, hcells, rfl⟩
  refine ⟨rfl, by rw [show (RRow.cells ⟨_, cells⟩) = cells from rfl,
    exMap_ok_length hcells, yearRange_length], ?_⟩
  intro j hj
  have hg := exMap_ok_getD hcells j (by rw [yearRange_length]; exact hj) 0 none
  rwa [yearRange_getD j hj] at hg

theorem genderRow_ok {cd : List PRec} {r s : String} {row : RRow}
    (h : genderRow cd r s = .ok row) :
    row.parameter = "Population by Gender[" ++ r ++ "," ++ s ++ "]" ∧
    row.cells.length = 201 ∧
    ∀ j : Nat, j < 201 → genderCell cd r s (1900 + (j : Int)) = .ok (row.cells.getD j none) := by
  rcases map_ok h with ⟨cells, hcells, rfl⟩
  refine ⟨rfl, by rw [show (RRow.cells ⟨_, cells⟩) = cells from rfl,
    exMap_ok_length hcells, yearRange_length], ?_⟩
  intro j hj
  have hg := exMap_ok_getD hcells j (by rw [yearRange_length]; exact hj) 0 none
  rwa [yearRange_getD j hj] at hg

theorem cohortRow_ok {cd : List PRec} {r s a0 : String} {row : RRow}
    (h : cohortRow cd r s a0 = .ok row) :
    row.parameter =
      "Population Cohorts[" ++ r ++ "," ++ s ++ ",\"" ++ ageReplace a0 ++ "\"]" ∧
    row.cells.length = 201 ∧
    ∀ j : Nat, j < 201 → cohortCell cd (cohortFilter cd r s (ageReplace a0)) (1900 + (j : Int)) =
      .ok (row.cells.getD j none) := by
  unfold cohortRow at h
  rcases bind_ok h with ⟨g, hg, h2⟩
  have hgf : g = cohortFilter cd r s (ageReplace a0) := by
    unfold cohortGroup at hg
    split at hg
    · exact absurd hg (by simp)
    · injection hg with hg
      exact hg.symm
  subst hgf
  rcases map_ok h2 with ⟨cells, hcells, rfl⟩
  refine ⟨rfl, by rw [show (RRow.cells ⟨_, cells⟩) = cells from rfl,
    exMap_ok_length hcells, yearRange_length], ?_⟩
  intro j hj
  have hc := exMap_ok_getD hcells j (by rw [yearRange_length]; exact hj) 0 none
  rwa [yearRange_getD j hj] at hc

theorem dataRestructure_ok {regions genders ages : List String} {cd : List PRec}
    {rows : List RRow} (h : dataRestructure regions genders ages cd = .ok rows) :
    ∃ s1 s2 s3, exMap (regionRow cd) regions = .ok s1 ∧
      exMap (fun p => genderRow cd p.1 p.2) (List.product regions genders) = .ok s2 ∧
      exMap (fun t => cohortRow cd t.1 t.2.1 t.2.2)
        (List.product regions (List.product genders ages)) = .ok s3 ∧
      rows = s1 ++ s2 ++ s3 := by
  unfold dataRestructure at h
  rcases bind_ok h with ⟨s1, h1, h⟩
  rcases bind_ok h with ⟨s2, h2, h⟩
  rcases bind_ok h with ⟨s3, h3, h⟩
  injection h with h
  exact ⟨s1, s2, s3, h1, h2, h3, h.symm⟩

theorem regionCell_spec {cd : List PRec} {r : String} {y : Int} {cell : Option ℚ}
    (h : regionCell cd r y = .ok cell) :
    ((∃ m ∈ cd, m.region = r ∧ m.year = y) →
      cell = some (qlistSum ((cd.filter fun m => m.region = r ∧ m.year = y).map (·.value)))) ∧
    ((¬ ∃ m ∈ cd, m.region = r ∧ m.year = y) → cell = none) := by
  constructor
  · rintro ⟨m, hm, hmr, hmy⟩
    have hav : yearAvail cd y = true := by
      simp only [yearAvail, List.any_eq_true, decide_eq_true_eq]
      exact ⟨m, hm, hmy⟩
    have hne : ¬ ((cd.filter fun m => m.region = r ∧ m.year = y).isEmpty = true) := by
      simp only [List.isEmpty_iff, List.filter_eq_nil_iff, decide_eq_true_eq, not_forall]
      exact ⟨m, hm, by simp [hmr, hmy]⟩
    unfold regionCell at h
    rw [if_pos hav, if_neg hne] at h
    injection h with h
    exact h.symm
  · intro hno
    by_cases hav : yearAvail cd y = true
    · have hempty : ((cd.filter fun m => m.region = r ∧ m.year = y).isEmpty = true) := by
        simp only [List.isEmpty_iff, List.filter_eq_nil_iff, decide_eq_true_eq]
        intro m hm hc
        exact hno ⟨m, hm, hc.1, hc.2⟩
      unfold regionCell at h
      rw [if_pos hav, if_pos hempty] at h
      exact absurd h (by simp)
    · unfold regionCell at h
      rw [if_neg hav] at h
      injection h with h
      exact h.symm

theorem genderCell_spec {cd : List PRec} {r s : String} {y : Int} {cell : Option ℚ}
    (h : genderCell cd r s y = .ok cell) :
    ((∃ m ∈ cd, m.region = r ∧ m.sex = s ∧ m.year = y) →
      cell = some (qlistSum
        ((cd.filter fun m => m.region = r ∧ m.sex = s ∧ m.year = y).map (·.value)))) ∧
    ((¬ ∃ m ∈ cd, m.region = r ∧ m.sex = s ∧ m.year = y) → cell = none) := by
  constructor
  · rintro ⟨m, hm, hmr, hms, hmy⟩
    have hav : yearAvail cd y = true := by
      simp only [yearAvail, List.any_eq_true, decide_eq_true_eq]
      exact ⟨m, hm, hmy⟩
    have hne : ¬ ((cd.filter fun m => m.region = r ∧ m.sex = s ∧ m.year = y).isEmpty = true) := by
      simp only [List.isEmpty_iff, List.filter_eq_nil_iff, decide_eq_true_eq, not_forall]
      exact ⟨m, hm, by simp [hmr, hms, hmy]⟩
    unfold genderCell at h
    rw [if_pos hav, if_neg hne] at h
    injection h with h
    exact h.symm
  · intro hno
    by_cases hav : yearAvail cd y = true
    · have hempty : ((cd.filter fun m => m.region = r ∧ m.sex = s ∧ m.year = y).isEmpty
          = true) := by
        simp only [List.isEmpty_iff, List.filter_eq_nil_iff, decide_eq_true_eq]
        intro m hm hc
        exact hno ⟨m, hm, hc.1, hc.2.1, hc.2.2⟩
      unfold genderCell at h
      rw [if_pos hav, if_pos hempty] at h
      exact absurd h (by simp)
    · unfold genderCell at h
      rw [if_neg hav] at h
      injection h with h
      exact h.symm

theorem cohortCell_spec {cd : List PRec} {r s a : String} {y : Int} {cell : Option ℚ}
    (h : cohortCell cd (cohortFilter cd r s a) y = .ok cell) :
    ((∃ m ∈ cd, m.region = r ∧ m.sex = s ∧ m.age = a ∧ m.year = y) →
      ∃ m ∈ cd, m.region = r ∧ m.sex = s ∧ m.age = a ∧ m.year = y ∧ cell = some m.value) ∧
    ((¬ ∃ m ∈ cd, m.region = r ∧ m.sex = s ∧ m.age = a ∧ m.year = y) → cell = none) := by
  constructor
  · rintro ⟨m, hm, hmr, hms, hma, hmy⟩
    have hav : yearAvail cd y = true := by
      simp only [yearAvail, List.any_eq_true, decide_eq_true_eq]
      exact ⟨m, hm, hmy⟩
    have hmem : m ∈ (cohortFilter cd r s a).filter fun m => m.year = y := by
      simp only [cohortFilter, List.mem_filter, decide_eq_true_eq]
      exact ⟨⟨hm, hmr, hms, hma⟩, hmy⟩
    rcases hh : ((cohortFilter cd r s a).filter fun m => m.year = y).head? with _ | m0
    · rw [List.head?_eq_none_iff] at hh
      rw [hh] at hmem
      exact absurd hmem (by simp)
    · have hm0 : m0 ∈ (cohortFilter cd r s a).filter fun m => m.year = y :=
        List.mem_of_mem_head? (by rw [hh]; rfl)
      simp only [cohortFilter, List.mem_filter, decide_eq_true_eq] at hm0
      obtain ⟨⟨hm0cd, hm0r, hm0s, hm0a⟩, hm0y⟩ := hm0
      unfold cohortCell at h
      rw [if_pos hav, hh] at h
      injection h with h
      exact ⟨m0, hm0cd, hm0r, hm0s, hm0a, hm0y, h.symm⟩
  · intro hno
    by_cases hav : yearAvail cd y = true
    · rcases hh : ((cohortFilter cd r s a).filter fun m => m.year = y).head? with _ | m0
      · unfold cohortCell at h
        rw [if_pos hav, hh] at h
        exact absurd h (by simp)
      · have hm0 : m0 ∈ (cohortFilter cd r s a).filter fun m => m.year = y :=
          List.mem_of_mem_head? (by rw [hh]; rfl)
        simp only [cohortFilter, List.mem_filter, decide_eq_true_eq] at hm0
        obtain ⟨⟨hm0cd, hm0r, hm0s, hm0a⟩, hm0y⟩ := hm0
        exact absurd ⟨m0, hm0cd, hm0r, hm0s, hm0a, hm0y⟩ hno
    · unfold cohortCell at h
      rw [if_neg hav] at h
      injection h with h
      exact h.symm

theorem cohortCell_blank {cd g : List PRec} {y : Int} {cell : Option ℚ}
    (h : cohortCell cd g y = .ok cell) (hav : yearAvail cd y = false) : cell = none := by
  unfold cohortCell at h
  rw [if_neg (by simp [hav])] at h
  injection h with h
  exact h.symm

/-! ## Verified properties (C1 through C10) -/

/-- C8: for fixed raw input and concordance, two runs of the population
clean-and-restructure pipeline produce the same output CSV text (the
wall-clock timestamp only enters the log-file path, so the written CSV,
hence its bytes, is a deterministic function of the inputs). -/
theorem population_pipeline_deterministic (ts tsOther : Nat)
    (regions genders ages : List String) (raw : List PRaw) (conc : List PConc) :
    (runPopulationScript ts regions genders ages raw conc).output =
      (runPopulationScript tsOther regions genders ages raw conc).output := rfl

/-- C9: the state-passing translations of `data_cleaning_unpd`
(population script) and of `data_cleaning_world_bank` (gdp script) leave
the concordance component of the script state unchanged: every pandas
operation the bodies apply to the concordance is value-returning. -/
theorem cleaning_preserves_concordance (regions genders ages : List String)
    (raw : List PRaw) (st : PopCleanState) (rawW : List WRaw) (u : String)
    (regionsW : List String) (stW : WBCleanState) :
    (dataCleaningUnpdTracked regions genders ages raw st).2.concordance = st.concordance ∧
    (gdpCleanWBTracked rawW u regionsW stW).2.concordance = stW.concordance :=
  ⟨rfl, rfl⟩

/-- C6: when no config entry matches the selection predicate, the script
prologue raises `KeyError` no matter what the raw-data reader would
return (so it aborts before any raw data is read); and a
`groupby(...).get_group(...)` lookup for a (region, year) pair with no
rows raises `KeyError`. -/
theorem config_and_group_keyerror (p : DatasetInfo → Bool) (ds : List DatasetInfo)
    (hnone : ∀ d ∈ ds, p d = false) :
    (∀ reader, scriptPrelude p ds reader = .error "KeyError") ∧
    (∀ (rows : List WRow) (r : String) (y : Int),
      (∀ m ∈ rows, ¬ (m.region = r ∧ m.year = y)) → wbGroup rows r y = .error "KeyError") := by
  constructor
  · intro reader
    unfold scriptPrelude
    rw [selectLast_none hnone]
  · intro rows r y hempty
    unfold wbGroup
    rw [if_pos]
    have : wbFilter rows r y = [] := by
      rw [wbFilter, List.filter_eq_nil_iff]
      intro m hm
      simpa using hempty m hm
    simp [this]

/-- The one config entry of the C6 witness: a world_bank dataset, so the
population script's (unpd, api) predicate matches nothing. -/
def dsEx : List DatasetInfo := [⟨"world_bank", "manual", "gdp_2015usd", 0⟩]

theorem config_and_group_keyerror_witness :
    ((∀ d ∈ dsEx, popConfigMatch "unpd" "api" d = false) ∧
      (∀ reader, scriptPrelude (popConfigMatch "unpd" "api") dsEx reader = .error "KeyError") ∧
      (∀ (rows : List WRow) (r : String) (y : Int),
        (∀ m ∈ rows, ¬ (m.region = r ∧ m.year = y)) → wbGroup rows r y = .error "KeyError")) :=
  ⟨by decide,
    (config_and_group_keyerror (popConfigMatch "unpd" "api") dsEx (by decide)).1,
    (config_and_group_keyerror (popConfigMatch "unpd" "api") dsEx (by decide)).2⟩

/-- C4: under a succeeding `curve_fit` oracle, `parameter_calibrating`
returns one result row per historic series of the region's table, and
that row is exactly the four fitted logistic parameters (L0, L, k, x0)
followed by one R² of the series against the logistic predictions
`L0 + L / (1 + exp(-k * (x / x_ref - x0)))`. -/
theorem calibration_result_shape (fit : List ℚ → List ℚ → Except Unit FitParams)
    (expFn : ℚ → ℚ) (xref : ℚ) (table : List (String × List ℚ)) (lastRow : String × List ℚ)
    (hlast : table.getLast? = some lastRow)
    (hfit : ∀ h ∈ table.dropLast.map (·.2), ∃ q, fit lastRow.2 h = .ok q) :
    ∃ rows, parameterCalibrating fit expFn xref table = .ok rows ∧
      rows.length = (table.dropLast.map (·.2)).length ∧
      (∀ i, i < (table.dropLast.map (·.2)).length →
        ∃ q, fit lastRow.2 ((table.dropLast.map (·.2)).getD i []) = .ok q ∧
          rows.getD i [] = [q.L0, q.L, q.k, q.x0,
            r2Score ((table.dropLast.map (·.2)).getD i [])
              (lastRow.2.map (logisticPredict expFn xref q))]) ∧
      (∀ q x, logisticPredict expFn xref q x =
        qadd q.L0 (qdiv q.L (qadd (qofNat 1)
          (expFn (qmul (qneg q.k) (qsub (qdiv x xref) q.x0)))))) := by
  obtain ⟨rows, hrows, hlen, hidx⟩ :=
    calLoop_ok_of_fit_ok fit expFn xref lastRow.2 (table.dropLast.map (·.2)) none hfit
  refine ⟨rows, ?_, hlen, hidx, fun q x => rfl⟩
  unfold parameterCalibrating
  rw [hlast]
  exact hrows

/-- The fit oracle of the C4 witness. -/
def fitEx : List ℚ → List ℚ → Except Unit FitParams :=
  fun _ _ => .ok ⟨mkRat 1 1, mkRat 2 1, qneg (mkRat 1 1), mkRat 0 1⟩

/-- The exponential oracle of the C4 and C5 witnesses. -/
def expEx : ℚ → ℚ := fun _ => mkRat 1 1

/-- The calibration input table of the C4 witness: one historic series
and the dependency series as the last row. -/
def tableEx : List (String × List ℚ) :=
  [("hist", [mkRat 1 1, mkRat 2 1]), ("dep", [mkRat 3 1, mkRat 4 1])]

theorem calibration_result_shape_witness :
    tableEx.getLast? = some ("dep", [mkRat 3 1, mkRat 4 1]) ∧
    (∃ rows, parameterCalibrating fitEx expEx (mkRat 1 1) tableEx = .ok rows ∧
      rows.length = (tableEx.dropLast.map (·.2)).length ∧
      (∀ i, i < (tableEx.dropLast.map (·.2)).length →
        ∃ q, fitEx ("dep", [mkRat 3 1, mkRat 4 1]).2 ((tableEx.dropLast.map (·.2)).getD i []) = .ok q ∧
          rows.getD i [] = [q.L0, q.L, q.k, q.x0,
            r2Score ((tableEx.dropLast.map (·.2)).getD i [])
              (("dep", [mkRat 3 1, mkRat 4 1]).2.map (logisticPredict expEx (mkRat 1 1) q))]) ∧
      (∀ q x, logisticPredict expEx (mkRat 1 1) q x =
        qadd q.L0 (qdiv q.L (qadd (qofNat 1)
          (expEx (qmul (qneg q.k) (qsub (qdiv x (mkRat 1 1)) q.x0))))))) :=
  ⟨rfl, calibration_result_shape fitEx expEx (mkRat 1 1) tableEx ("dep", [mkRat 3 1, mkRat 4 1])
    rfl (fun _ _ => ⟨_, rfl⟩)⟩

/-- C5 (amended): exceptions abort the scripts uncaught, with the two
exceptions the cited code itself contains: (1) in `parameter_calibrating`
a `RuntimeError` from `curve_fit` is caught and logged, and the loop
continues, filling the current series' result row from the previous
iteration's still-bound `n_par` (when no fit has succeeded yet the
handler leaves `n_par` unbound and the loop aborts with `NameError`);
(2) in `data_restructure`'s cohort loop an `IndexError` is caught and the
process is terminated via `print`/`exit()`. -/
theorem exception_handling_exceptions (fit : List ℚ → List ℚ → Except Unit FitParams)
    (expFn : ℚ → ℚ) (xref : ℚ) (dep hSeries : List ℚ) (rest : List (List ℚ))
    (q : FitParams) (rows : List (List ℚ)) (cd g : List PRec) (y : Int) :
    (fit dep hSeries = .error () → calLoop fit expFn xref dep rest (some q) = .ok rows →
      calLoop fit expFn xref dep (hSeries :: rest) (some q) =
        .ok ([q.L0, q.L, q.k, q.x0,
          r2Score hSeries (dep.map (logisticPredict expFn xref q))] :: rows)) ∧
    (fit dep hSeries = .error () →
      calLoop fit expFn xref dep (hSeries :: rest) none = .error "NameError") ∧
    (yearAvail cd y = true → (g.filter fun m => m.year = y) = [] →
      cohortCell cd g y = .error "SystemExit") := by
  refine ⟨?_, ?_, ?_⟩
  · intro herr hrec
    simp only [calLoop, herr, hrec]
  · intro herr
    simp only [calLoop, herr]
  · intro hav hfil
    unfold cohortCell
    rw [if_pos hav, hfil]
    rfl

/-- The dependency series used by the C5 witness and counterexample. -/
def depC5 : List ℚ := [mkRat 0 1, mkRat 1 1]

/-- The fit oracle of the C5 witness and counterexample: `curve_fit`
raises `RuntimeError` on the series `[9, 9]` and succeeds elsewhere. -/
def fitC5 : List ℚ → List ℚ → Except Unit FitParams :=
  fun _ h =>
    if h = [mkRat 9 1, mkRat 9 1] then .error ()
    else .ok ⟨mkRat 1 1, mkRat 1 1, qneg (mkRat 1 1), mkRat 1 1⟩

/-- The parameters fitC5 returns on success. -/
def pEx : FitParams := ⟨mkRat 1 1, mkRat 1 1, qneg (mkRat 1 1), mkRat 1 1⟩

/-- A cleaned table containing year 2000, for the C5 witness's cohort part. -/
def cdC5 : List PRec := [⟨"Africa", "female", "0-4", 2000, mkRat 5 1⟩]

theorem exception_handling_exceptions_witness :
    calLoop fitC5 expEx (mkRat 1 1) depC5 [[mkRat 9 1, mkRat 9 1]] (some pEx) =
      .ok [[pEx.L0, pEx.L, pEx.k, pEx.x0,
        r2Score [mkRat 9 1, mkRat 9 1] (depC5.map (logisticPredict expEx (mkRat 1 1) pEx))]] ∧
    calLoop fitC5 expEx (mkRat 1 1) depC5 [[mkRat 9 1, mkRat 9 1]] none = .error "NameError" ∧
    cohortCell cdC5 [] 2000 = .error "SystemExit" :=
  ⟨(exception_handling_exceptions fitC5 expEx (mkRat 1 1) depC5 [mkRat 9 1, mkRat 9 1] []
      pEx [] cdC5 [] 2000).1 rfl rfl,
   (exception_handling_exceptions fitC5 expEx (mkRat 1 1) depC5 [mkRat 9 1, mkRat 9 1] []
      pEx [] cdC5 [] 2000).2.1 rfl,
   (exception_handling_exceptions fitC5 expEx (mkRat 1 1) depC5 [mkRat 9 1, mkRat 9 1] []
      pEx [] cdC5 [] 2000).2.2 (by decide) rfl⟩

/-- The two-series calibration input of the C5 counterexample: `curve_fit`
succeeds on the first series and raises `RuntimeError` on the second. -/
def histsC5 : List (List ℚ) := [[mkRat 1 1, mkRat 1 1], [mkRat 9 1, mkRat 9 1]]

/-- The result rows the loop produces on `histsC5`. -/
def rowsC5 : List (List ℚ) :=
  (calLoop fitC5 expEx (mkRat 1 1) depC5 histsC5 none).toOption.getD []

theorem exception_handling_counterexample :
    fitC5 depC5 [mkRat 9 1, mkRat 9 1] = .error () ∧
    calLoop fitC5 expEx (mkRat 1 1) depC5 histsC5 none = .ok rowsC5 ∧
    rowsC5.length = 2 ∧
    (rowsC5.getD 1 []).take 4 = (rowsC5.getD 0 []).take 4 :=
  ⟨rfl, rfl, by decide, by decide⟩

/-- C3 (amended): in each of the three per-source cleaners a non-World
regional entry is emitted for a year only if the missing fraction of that
region's country values is below the cleaner's threshold — `0.2` in the
gdp and capital-shares cleaners for every region, but `0.3` for LAC and
AsiaPacific (and `0.2` otherwise) in capital_activities.py. -/
theorem coverage_thresholds
    (rowsG : List WRow) (yG : Int) (uG : String) (outG : List GEntry)
    (rowsC : List WRow) (yC : Int) (uC : String) (outC : List GEntry)
    (rowsS rowsSD : List LRow) (yS : Int) (outS : List SEntry)
    (hG : gdpCleanYear rowsG yG uG felixRegions = .ok outG)
    (hC : capCleanYear rowsC yC uC felixRegions = .ok outC)
    (hS : shCleanYear rowsS rowsSD yS felixRegions = .ok outS) :
    (∀ e ∈ outG, e.region ≠ "World" → covOK (wbFilter rowsG e.region yG) gdpThreshold) ∧
    (∀ e ∈ outC, e.region ≠ "World" → covOK (wbFilter rowsC e.region yC) (capThreshold e.region)) ∧
    (∀ e ∈ outS, e.region ≠ "World" →
      covDepOK (shPairs (locFilter rowsS e.region yS) (locFilter rowsSD e.region yS))
        (shThreshold e.region)) := by
  refine ⟨?_, ?_, ?_⟩
  · intro e he hw
    rcases gdpCleanYear_cases rowsG yG uG outG hG with ⟨-, rfl⟩ | ⟨hall, rfl⟩
    · simp at he
    · rcases List.mem_cons.mp he with rfl | he'
      · exact absurd rfl hw
      · rcases List.mem_map.mp he' with ⟨r, hr, rfl⟩
        simpa [scaleEntry, mkWBEntry] using hall r hr
  · intro e he hw
    unfold capCleanYear at hC
    rcases bind_ok hC with ⟨pend, hloop, h2⟩
    have hmem : e ∈ pend → covOK (wbFilter rowsC e.region yC) (capThreshold e.region) := by
      intro hp
      rcases capYearLoop_mem rowsC yC uC felixRegions [] pend hloop e hp with h0 | ⟨r, -, -, hc, rfl⟩
      · simp at h0
      · simpa [mkWBEntry] using hc
    split at h2
    · injection h2 with h2
      rw [← h2] at he
      rcases List.mem_append.mp he with hp | hglb
      · exact hmem hp
      · rw [List.mem_singleton.mp hglb] at hw
        simp [felixRegions] at hw
    · injection h2 with h2
      rw [← h2] at he
      exact hmem he
  · intro e he hw
    unfold shCleanYear at hS
    rcases bind_ok hS with ⟨pend, hloop, h2⟩
    have hmem : e ∈ pend →
        covDepOK (shPairs (locFilter rowsS e.region yS) (locFilter rowsSD e.region yS))
          (shThreshold e.region) := by
      intro hp
      rcases shYearLoop_mem rowsS rowsSD yS felixRegions [] pend hloop e hp with
        h0 | ⟨r, -, -, hc, rfl⟩
      · simp at h0
      · simpa [mkShEntry] using hc
    split at h2
    · injection h2 with h2
      rw [← h2] at he
      rcases List.mem_append.mp he with hp | hglb
      · exact hmem hp
      · rw [List.mem_singleton.mp hglb] at hw
        simp [felixRegions] at hw
    · injection h2 with h2
      rw [← h2] at he
      exact hmem he

/-- The merged World Bank rows of the gdp witness year: one country per
region with value 1, one World aggregate with value 10. -/
def gdpRowsEx : List WRow :=
  [⟨"Africa", 2000, some (mkRat 1 1)⟩, ⟨"AsiaPacific", 2000, some (mkRat 1 1)⟩,
   ⟨"EastEu", 2000, some (mkRat 1 1)⟩, ⟨"LAC", 2000, some (mkRat 1 1)⟩,
   ⟨"WestEu", 2000, some (mkRat 1 1)⟩, ⟨"World", 2000, some (mkRat 10 1)⟩]

/-- The merged World Bank rows of the capital witness year: LAC has four
countries of which one is NaN (25 percent missing). -/
def capRowsEx : List WRow :=
  [⟨"Africa", 2000, some (mkRat 1 1)⟩, ⟨"AsiaPacific", 2000, some (mkRat 1 1)⟩,
   ⟨"EastEu", 2000, some (mkRat 1 1)⟩,
   ⟨"LAC", 2000, some (mkRat 1 1)⟩, ⟨"LAC", 2000, some (mkRat 1 1)⟩,
   ⟨"LAC", 2000, some (mkRat 1 1)⟩, ⟨"LAC", 2000, none⟩,
   ⟨"WestEu", 2000, some (mkRat 1 1)⟩, ⟨"World", 2000, some (mkRat 9 1)⟩]

/-- The merged share rows of the shares witness year. -/
def shRowsEx : List LRow :=
  [⟨"cA", "Africa", 2000, some (mkRat 50 1)⟩, ⟨"cP", "AsiaPacific", 2000, some (mkRat 50 1)⟩,
   ⟨"cE", "EastEu", 2000, some (mkRat 50 1)⟩, ⟨"cL", "LAC", 2000, some (mkRat 50 1)⟩,
   ⟨"cW", "WestEu", 2000, some (mkRat 50 1)⟩, ⟨"World", "World", 2000, some (mkRat 50 1)⟩]

/-- The merged dependent (GDP) rows of the shares witness year. -/
def shRowsDepEx : List LRow :=
  [⟨"cA", "Africa", 2000, some (mkRat 2 1)⟩, ⟨"cP", "AsiaPacific", 2000, some (mkRat 2 1)⟩,
   ⟨"cE", "EastEu", 2000, some (mkRat 2 1)⟩, ⟨"cL", "LAC", 2000, some (mkRat 2 1)⟩,
   ⟨"cW", "WestEu", 2000, some (mkRat 2 1)⟩, ⟨"World", "World", 2000, some (mkRat 20 1)⟩]

/-- The gdp cleaner's output on the witness year. -/
def gdpOutEx : List GEntry := (gdpCleanYear gdpRowsEx 2000 "u" felixRegions).toOption.getD []

/-- The capital cleaner's output on the witness year. -/
def capOutEx : List GEntry := (capCleanYear capRowsEx 2000 "u" felixRegions).toOption.getD []

/-- The shares cleaner's output on the witness year. -/
def shOutEx : List SEntry :=
  (shCleanYear shRowsEx shRowsDepEx 2000 felixRegions).toOption.getD []

theorem coverage_thresholds_witness :
    gdpCleanYear gdpRowsEx 2000 "u" felixRegions = .ok gdpOutEx ∧
    capCleanYear capRowsEx 2000 "u" felixRegions = .ok capOutEx ∧
    shCleanYear shRowsEx shRowsDepEx 2000 felixRegions = .ok shOutEx ∧
    ((∀ e ∈ gdpOutEx, e.region ≠ "World" →
        covOK (wbFilter gdpRowsEx e.region 2000) gdpThreshold) ∧
      (∀ e ∈ capOutEx, e.region ≠ "World" →
        covOK (wbFilter capRowsEx e.region 2000) (capThreshold e.region)) ∧
      (∀ e ∈ shOutEx, e.region ≠ "World" →
        covDepOK (shPairs (locFilter shRowsEx e.region 2000) (locFilter shRowsDepEx e.region 2000))
          (shThreshold e.region))) :=
  ⟨rfl, rfl, rfl,
    coverage_thresholds gdpRowsEx 2000 "u" gdpOutEx capRowsEx 2000 "u" capOutEx
      shRowsEx shRowsDepEx 2000 shOutEx rfl rfl rfl⟩

theorem coverage_thresholds_counterexample :
    capCleanYear capRowsEx 2000 "u" felixRegions = .ok capOutEx ∧
    capOutEx.any (fun e => e.region = "LAC") = true ∧
    ¬ covOK (wbFilter capRowsEx "LAC" 2000) (mkRat 2 10) :=
  ⟨rfl, by decide, by decide⟩

/-- C2 (amended): a region entry that passes the coverage filter is
emitted by the capital cleaner with exactly the NaN-skipping sum of that
region's country values; the gdp cleaner emits that sum multiplied by the
year's balancing factor (the raw World value divided by the total of the
five regional sums), so its value equals the plain sum only when that
factor is 1. -/
theorem region_sum_conservation
    (rowsC : List WRow) (yC : Int) (uC : String) (outC : List GEntry)
    (rowsG : List WRow) (yG : Int) (uG : String) (outG : List GEntry)
    (hC : capCleanYear rowsC yC uC felixRegions = .ok outC)
    (hG : gdpCleanYear rowsG yG uG felixRegions = .ok outG) :
    (∀ e ∈ outC, e.region ≠ "World" → e.value = some (groupSum rowsC e.region yC)) ∧
    (∀ e ∈ outG, e.region ≠ "World" → e.value = (worldFirst rowsG yG).map fun wv =>
      qmul (groupSum rowsG e.region yG) (qdiv wv (fiveTotal rowsG yG))) := by
  constructor
  · intro e he hw
    unfold capCleanYear at hC
    rcases bind_ok hC with ⟨pend, hloop, h2⟩
    have hmem : e ∈ pend → e.value = some (groupSum rowsC e.region yC) := by
      intro hp
      rcases capYearLoop_mem rowsC yC uC felixRegions [] pend hloop e hp with h0 | ⟨r, -, -, -, rfl⟩
      · simp at h0
      · simp [mkWBEntry, groupSum]
    split at h2
    · injection h2 with h2
      rw [← h2] at he
      rcases List.mem_append.mp he with hp | hglb
      · exact hmem hp
      · rw [List.mem_singleton.mp hglb] at hw
        simp [felixRegions] at hw
    · injection h2 with h2
      rw [← h2] at he
      exact hmem he
  · intro e he hw
    rcases gdpCleanYear_cases rowsG yG uG outG hG with ⟨-, rfl⟩ | ⟨-, rfl⟩
    · simp at he
    · rcases List.mem_cons.mp he with rfl | he'
      · exact absurd rfl hw
      · rcases List.mem_map.mp he' with ⟨r, -, rfl⟩
        simp [scaleEntry, mkWBEntry, groupSum, Option.bind]

theorem region_sum_conservation_witness :
    capCleanYear capRowsEx 2000 "u" felixRegions = .ok capOutEx ∧
    gdpCleanYear gdpRowsEx 2000 "u" felixRegions = .ok gdpOutEx ∧
    ((∀ e ∈ capOutEx, e.region ≠ "World" → e.value = some (groupSum capRowsEx e.region 2000)) ∧
      (∀ e ∈ gdpOutEx, e.region ≠ "World" → e.value = (worldFirst gdpRowsEx 2000).map fun wv =>
        qmul (groupSum gdpRowsEx e.region 2000) (qdiv wv (fiveTotal gdpRowsEx 2000)))) :=
  ⟨rfl, rfl,
    region_sum_conservation capRowsEx 2000 "u" capOutEx gdpRowsEx 2000 "u" gdpOutEx rfl rfl⟩

/-- The concordance of the gdp counterexamples: one country per region
plus the World aggregate. -/
def gdpConcEx : List WConc :=
  [⟨"cA", "Africa"⟩, ⟨"cP", "AsiaPacific"⟩, ⟨"cE", "EastEu"⟩,
   ⟨"cL", "LAC"⟩, ⟨"cW", "WestEu"⟩, ⟨"World", "World"⟩]

/-- The raw World Bank data of the C2 counterexample: each country
reports 1, the World aggregate reports 10, so the balancing factor is 2. -/
def gdpRawEx : List WRaw :=
  [⟨"cA", 2000, some (mkRat 1 1)⟩, ⟨"cP", 2000, some (mkRat 1 1)⟩,
   ⟨"cE", 2000, some (mkRat 1 1)⟩, ⟨"cL", 2000, some (mkRat 1 1)⟩,
   ⟨"cW", 2000, some (mkRat 1 1)⟩, ⟨"World", 2000, some (mkRat 10 1)⟩]

/-- The gdp cleaner's output on the C2 counterexample input. -/
def gdpWBOut1 : List GEntry := (gdpCleanWB gdpRawEx gdpConcEx "u" felixRegions).toOption.getD []

theorem region_sum_conservation_counterexample :
    gdpCleanWB gdpRawEx gdpConcEx "u" felixRegions = .ok gdpWBOut1 ∧
    groupSum (mergeWB gdpRawEx gdpConcEx) "Africa" 2000 = mkRat 1 1 ∧
    gdpWBOut1.any (fun e => e.region = "Africa" ∧ e.value = some (mkRat 2 1)) = true ∧
    gdpWBOut1.any (fun e => e.region = "Africa" ∧
      e.value = some (groupSum (mergeWB gdpRawEx gdpConcEx) "Africa" 2000)) = false :=
  ⟨rfl, by decide, by decide, by decide⟩

/-- C10 (amended): per year the gdp cleaner is all-or-nothing including
the World row: when all five non-World regions pass the coverage filter,
the year's output is the World entry followed by the five rescaled
regional entries, and the rescaled values sum to the raw World value
(whenever that value is present and the five-region total is nonzero); when any of
the five fails, no row at all — World included — is emitted for that
year, because the `break` precedes the World entry (World is last in the
region order). -/
theorem gdp_year_all_or_nothing (rows : List WRow) (y : Int) (u : String) (out : List GEntry)
    (h : gdpCleanYear rows y u felixRegions = .ok out) :
    (¬ gdpPass rows y ∧ out = []) ∨
    (gdpPass rows y ∧
      out = mkWBEntry (wbFilter rows "World" y) "World" y u ::
        (fiveRegions.map fun r => scaleEntry (worldFirst rows y) (fiveTotal rows y)
          (mkWBEntry (wbFilter rows r y) r y u)) ∧
      (∀ wv, worldFirst rows y = some wv → fiveTotal rows y ≠ 0 →
        optSum ((out.drop 1).map (·.value)) = wv)) := by
  rcases gdpCleanYear_cases rows y u out h with ⟨hnp, rfl⟩ | ⟨hp, rfl⟩
  · exact .inl ⟨hnp, rfl⟩
  · refine .inr ⟨hp, rfl, ?_⟩
    intro wv hwv ht
    simp only [List.drop_succ_cons, List.drop_zero, List.map_map]
    have hval : ((·.value) ∘ fun r => scaleEntry (worldFirst rows y) (fiveTotal rows y)
        (mkWBEntry (wbFilter rows r y) r y u)) =
        fun r => some (qmul (groupSum rows r y) (qdiv wv (fiveTotal rows y))) := by
      funext r
      simp [scaleEntry, mkWBEntry, hwv, Option.bind, groupSum]
    rw [hval]
    rw [show (fun r => some (qmul (groupSum rows r y) (qdiv wv (fiveTotal rows y)))) =
      some ∘ (fun r => qmul (groupSum rows r y) (qdiv wv (fiveTotal rows y))) from rfl]
    rw [← List.map_map, optSum_map_some]
    have hexp : fiveTotal rows y = groupSum rows "Africa" y + (groupSum rows "AsiaPacific" y +
        (groupSum rows "EastEu" y + (groupSum rows "LAC" y +
          (groupSum rows "WestEu" y + 0)))) := by
      simp [fiveTotal, fiveRegions, qlistSum, qadd_eq, Rat.mkRat_eq_div]
    rw [hexp] at ht ⊢
    simp only [fiveRegions, List.map_cons, List.map_nil, qlistSum, List.foldr,
      qadd_eq, qmul_eq, qdiv_eq, Rat.mkRat_eq_div]
    have htflat : groupSum rows "Africa" y + groupSum rows "AsiaPacific" y +
        groupSum rows "EastEu" y + groupSum rows "LAC" y + groupSum rows "WestEu" y ≠ 0 := by
      intro h0
      exact ht (by linear_combination h0)
    field_simp
    have h1 : (groupSum rows "Africa" y + groupSum rows "AsiaPacific" y +
        groupSum rows "EastEu" y + groupSum rows "LAC" y + groupSum rows "WestEu" y) *
        (groupSum rows "Africa" y + groupSum rows "AsiaPacific" y +
          groupSum rows "EastEu" y + groupSum rows "LAC" y + groupSum rows "WestEu" y)⁻¹ = 1 :=
      mul_inv_cancel₀ htflat
    linear_combination wv * h1

theorem gdp_year_all_or_nothing_witness :
    gdpCleanYear gdpRowsEx 2000 "u" felixRegions = .ok gdpOutEx ∧
    ((¬ gdpPass gdpRowsEx 2000 ∧ gdpOutEx = []) ∨
      (gdpPass gdpRowsEx 2000 ∧
        gdpOutEx = mkWBEntry (wbFilter gdpRowsEx "World" 2000) "World" 2000 "u" ::
          (fiveRegions.map fun r => scaleEntry (worldFirst gdpRowsEx 2000)
            (fiveTotal gdpRowsEx 2000) (mkWBEntry (wbFilter gdpRowsEx r 2000) r 2000 "u")) ∧
        (∀ wv, worldFirst gdpRowsEx 2000 = some wv → fiveTotal gdpRowsEx 2000 ≠ 0 →
          optSum ((gdpOutEx.drop 1).map (·.value)) = wv))) :=
  ⟨rfl, gdp_year_all_or_nothing gdpRowsEx 2000 "u" gdpOutEx rfl⟩

/-- The raw World Bank data of the C10 counterexample: in 2001 only the
three Africa countries report, two of them NaN, so Africa fails the 20
percent coverage test and the loop breaks. -/
def gdpRawEx2 : List WRaw :=
  gdpRawEx ++ [⟨"cA", 2001, none⟩, ⟨"cA", 2001, none⟩, ⟨"cA", 2001, some (mkRat 1 1)⟩]

/-- The gdp cleaner's output on the C10 counterexample input. -/
def gdpWBOut2 : List GEntry := (gdpCleanWB gdpRawEx2 gdpConcEx "u" felixRegions).toOption.getD []

theorem gdp_year_all_or_nothing_counterexample :
    gdpCleanWB gdpRawEx2 gdpConcEx "u" felixRegions = .ok gdpWBOut2 ∧
    (mergeWB gdpRawEx2 gdpConcEx).any (fun m => m.year = 2001) = true ∧
    gdpWBOut2.any (fun e => e.year = 2000 ∧ e.region = "World") = true ∧
    gdpWBOut2.any (fun e => e.year = 2001) = false :=
  ⟨rfl, by decide, by decide, by decide⟩

/-- C7: every row of the restructured table has a bracketed parameter
name of one of the three section formats, exactly one cell per year
column 1900 through 2100 (201 cells), and a blank cell at every year with
no data in the cleaned table. -/
theorem restructure_shape (regions genders ages : List String) (cd : List PRec)
    (rows : List RRow) (h : dataRestructure regions genders ages cd = .ok rows) :
    (∀ row ∈ rows, row.cells.length = 201) ∧
    (∀ row ∈ rows, ∀ j : Nat, j < 201 → yearAvail cd (1900 + (j : Int)) = false →
      row.cells.getD j none = none) ∧
    (∀ row ∈ rows,
      (∃ r ∈ regions, row.parameter = "Population[" ++ r ++ "]") ∨
      (∃ r ∈ regions, ∃ s ∈ genders,
        row.parameter = "Population by Gender[" ++ r ++ "," ++ s ++ "]") ∨
      (∃ r ∈ regions, ∃ s ∈ genders, ∃ a ∈ ages,
        row.parameter =
          "Population Cohorts[" ++ r ++ "," ++ s ++ ",\"" ++ ageReplace a ++ "\"]")) := by
  obtain ⟨s1, s2, s3, h1, h2, h3, rfl⟩ := dataRestructure_ok h
  have split3 : ∀ row, row ∈ s1 ++ s2 ++ s3 → row ∈ s1 ∨ row ∈ s2 ∨ row ∈ s3 := by
    intro row hrow
    rcases List.mem_append.mp hrow with h12 | hin3
    · rcases List.mem_append.mp h12 with hin1 | hin2
      · exact .inl hin1
      · exact .inr (.inl hin2)
    · exact .inr (.inr hin3)
  refine ⟨?_, ?_, ?_⟩
  · intro row hrow
    rcases split3 row hrow with hin | hin | hin
    · obtain ⟨r, -, hr⟩ := exMap_ok_mem h1 row hin
      exact (regionRow_ok hr).2.1
    · obtain ⟨p, -, hp⟩ := exMap_ok_mem h2 row hin
      exact (genderRow_ok hp).2.1
    · obtain ⟨t, -, ht⟩ := exMap_ok_mem h3 row hin
      exact (cohortRow_ok ht).2.1
  · intro row hrow j hj hav
    rcases split3 row hrow with hin | hin | hin
    · obtain ⟨r, -, hr⟩ := exMap_ok_mem h1 row hin
      have hc := (regionRow_ok hr).2.2 j hj
      unfold regionCell at hc
      rw [if_neg (by simp [hav])] at hc
      injection hc with hc
      exact hc.symm
    · obtain ⟨p, -, hp⟩ := exMap_ok_mem h2 row hin
      have hc := (genderRow_ok hp).2.2 j hj
      unfold genderCell at hc
      rw [if_neg (by simp [hav])] at hc
      injection hc with hc
      exact hc.symm
    · obtain ⟨t, -, ht⟩ := exMap_ok_mem h3 row hin
      exact cohortCell_blank ((cohortRow_ok ht).2.2 j hj) hav
  · intro row hrow
    rcases split3 row hrow with hin | hin | hin
    · obtain ⟨r, hrmem, hr⟩ := exMap_ok_mem h1 row hin
      exact .inl ⟨r, hrmem, (regionRow_ok hr).1⟩
    · obtain ⟨p, hpmem, hp⟩ := exMap_ok_mem h2 row hin
      obtain ⟨hr, hs⟩ := List.pair_mem_product.mp hpmem
      exact .inr (.inl ⟨p.1, hr, p.2, hs, (genderRow_ok hp).1⟩)
    · obtain ⟨t, htmem, ht⟩ := exMap_ok_mem h3 row hin
      obtain ⟨hr, hsa⟩ := List.pair_mem_product.mp htmem
      obtain ⟨hs, ha⟩ := List.pair_mem_product.mp hsa
      exact .inr (.inr ⟨t.1, hr, t.2.1, hs, t.2.2, ha, (cohortRow_ok ht).1⟩)

/-- C1: the restructured table reproduces the cleaned data.  For every
`Population[r]` and `Population by Gender[r,s]` row and every year column
with an observation for that combination, the cell is the summed cleaned
value and every other cell of the row is blank; for every cohort row the
cell carries the cleaned observation's value itself.  (The theorem's
hypothesis is that the restructuring returned — when a combination lacks
a globally available year it aborts instead, per C5's IndexError exit.) -/
theorem restructure_roundtrip (regions genders ages : List String) (cd : List PRec)
    (rows : List RRow) (h : dataRestructure regions genders ages cd = .ok rows) :
    (∀ r ∈ regions, ∃ row ∈ rows, row.parameter = "Population[" ++ r ++ "]" ∧
      ∀ j : Nat, j < 201 →
        ((∃ m ∈ cd, m.region = r ∧ m.year = 1900 + (j : Int)) →
          row.cells.getD j none = some (qlistSum
            ((cd.filter fun m => m.region = r ∧ m.year = 1900 + (j : Int)).map (·.value)))) ∧
        ((¬ ∃ m ∈ cd, m.region = r ∧ m.year = 1900 + (j : Int)) →
          row.cells.getD j none = none)) ∧
    (∀ r ∈ regions, ∀ s ∈ genders, ∃ row ∈ rows,
      row.parameter = "Population by Gender[" ++ r ++ "," ++ s ++ "]" ∧
      ∀ j : Nat, j < 201 →
        ((∃ m ∈ cd, m.region = r ∧ m.sex = s ∧ m.year = 1900 + (j : Int)) →
          row.cells.getD j none = some (qlistSum
            ((cd.filter fun m => m.region = r ∧ m.sex = s ∧ m.year = 1900 + (j : Int)).map
              (·.value)))) ∧
        ((¬ ∃ m ∈ cd, m.region = r ∧ m.sex = s ∧ m.year = 1900 + (j : Int)) →
          row.cells.getD j none = none)) ∧
    (∀ r ∈ regions, ∀ s ∈ genders, ∀ a0 ∈ ages, ∃ row ∈ rows,
      row.parameter =
        "Population Cohorts[" ++ r ++ "," ++ s ++ ",\"" ++ ageReplace a0 ++ "\"]" ∧
      ∀ j : Nat, j < 201 →
        ((∃ m ∈ cd, m.region = r ∧ m.sex = s ∧ m.age = ageReplace a0 ∧
            m.year = 1900 + (j : Int)) →
          ∃ m ∈ cd, m.region = r ∧ m.sex = s ∧ m.age = ageReplace a0 ∧
            m.year = 1900 + (j : Int) ∧ row.cells.getD j none = some m.value) ∧
        ((¬ ∃ m ∈ cd, m.region = r ∧ m.sex = s ∧ m.age = ageReplace a0 ∧
            m.year = 1900 + (j : Int)) →
          row.cells.getD j none = none)) := by
  obtain ⟨s1, s2, s3, h1, h2, h3, rfl⟩ := dataRestructure_ok h
  refine ⟨?_, ?_, ?_⟩
  · intro r hr
    obtain ⟨row, hrow, hreg⟩ := exMap_ok_forall h1 r hr
    obtain ⟨hname, -, hcells⟩ := regionRow_ok hreg
    refine ⟨row, by simp [hrow], hname, ?_⟩
    intro j hj
    exact regionCell_spec (hcells j hj)
  · intro r hr s hs
    obtain ⟨row, hrow, hgen⟩ :=
      exMap_ok_forall h2 (r, s) (List.pair_mem_product.mpr ⟨hr, hs⟩)
    obtain ⟨hname, -, hcells⟩ := genderRow_ok hgen
    refine ⟨row, by simp [hrow], hname, ?_⟩
    intro j hj
    exact genderCell_spec (hcells j hj)
  · intro r hr s hs a0 ha0
    obtain ⟨row, hrow, hcoh⟩ := exMap_ok_forall h3 (r, (s, a0))
      (List.pair_mem_product.mpr ⟨hr, List.pair_mem_product.mpr ⟨hs, ha0⟩⟩)
    obtain ⟨hname, -, hcells⟩ := cohortRow_ok hcoh
    refine ⟨row, by simp [hrow], hname, ?_⟩
    intro j hj
    exact cohortCell_spec (hcells j hj)

/-- The cleaned table of the C1 and C7 witnesses: one observation. -/
def cdEx : List PRec := [⟨"Africa", "female", "0-4", 2000, mkRat 5 1⟩]

/-- The restructured table of the C1 and C7 witnesses. -/
def rowsEx : List RRow := (dataRestructure ["Africa"] ["female"] ["0--4"] cdEx).toOption.getD []

theorem restructure_shape_witness :
    dataRestructure ["Africa"] ["female"] ["0--4"] cdEx = .ok rowsEx ∧
    ((∀ row ∈ rowsEx, row.cells.length = 201) ∧
      (∀ row ∈ rowsEx, ∀ j : Nat, j < 201 → yearAvail cdEx (1900 + (j : Int)) = false →
        row.cells.getD j none = none) ∧
      (∀ row ∈ rowsEx,
        (∃ r ∈ ["Africa"], row.parameter = "Population[" ++ r ++ "]") ∨
        (∃ r ∈ ["Africa"], ∃ s ∈ ["female"],
          row.parameter = "Population by Gender[" ++ r ++ "," ++ s ++ "]") ∨
        (∃ r ∈ ["Africa"], ∃ s ∈ ["female"], ∃ a ∈ ["0--4"],
          row.parameter =
            "Population Cohorts[" ++ r ++ "," ++ s ++ ",\"" ++ ageReplace a ++ "\"]"))) :=
  ⟨rfl, restructure_shape ["Africa"] ["female"] ["0--4"] cdEx rowsEx rfl⟩

theorem restructure_roundtrip_witness :
    dataRestructure ["Africa"] ["female"] ["0--4"] cdEx = .ok rowsEx ∧
    ((∀ r ∈ ["Africa"], ∃ row ∈ rowsEx, row.parameter = "Population[" ++ r ++ "]" ∧
      ∀ j : Nat, j < 201 →
        ((∃ m ∈ cdEx, m.region = r ∧ m.year = 1900 + (j : Int)) →
          row.cells.getD j none = some (qlistSum
            ((cdEx.filter fun m => m.region = r ∧ m.year = 1900 + (j : Int)).map (·.value)))) ∧
        ((¬ ∃ m ∈ cdEx, m.region = r ∧ m.year = 1900 + (j : Int)) →
          row.cells.getD j none = none)) ∧
    (∀ r ∈ ["Africa"], ∀ s ∈ ["female"], ∃ row ∈ rowsEx,
      row.parameter = "Population by Gender[" ++ r ++ "," ++ s ++ "]" ∧
      ∀ j : Nat, j < 201 →
        ((∃ m ∈ cdEx, m.region = r ∧ m.sex = s ∧ m.year = 1900 + (j : Int)) →
          row.cells.getD j none = some (qlistSum
            ((cdEx.filter fun m => m.region = r ∧ m.sex = s ∧ m.year = 1900 + (j : Int)).map
              (·.value)))) ∧
        ((¬ ∃ m ∈ cdEx, m.region = r ∧ m.sex = s ∧ m.year = 1900 + (j : Int)) →
          row.cells.getD j none = none)) ∧
    (∀ r ∈ ["Africa"], ∀ s ∈ ["female"], ∀ a0 ∈ ["0--4"], ∃ row ∈ rowsEx,
      row.parameter =
        "Population Cohorts[" ++ r ++ "," ++ s ++ ",\"" ++ ageReplace a0 ++ "\"]" ∧
      ∀ j : Nat, j < 201 →
        ((∃ m ∈ cdEx, m.region = r ∧ m.sex = s ∧ m.age = ageReplace a0 ∧
            m.year = 1900 + (j : Int)) →
          ∃ m ∈ cdEx, m.region = r ∧ m.sex = s ∧ m.age = ageReplace a0 ∧
            m.year = 1900 + (j : Int) ∧ row.cells.getD j none = some m.value) ∧
        ((¬ ∃ m ∈ cdEx, m.region = r ∧ m.sex = s ∧ m.age = ageReplace a0 ∧
            m.year = 1900 + (j : Int)) →
          row.cells.getD j none = none))) :=
  ⟨rfl, restructure_roundtrip ["Africa"] ["female"] ["0--4"] cdEx rowsEx rfl⟩

end Felix
